import Mathlib

/-!
Verification development for the moon-sim SSD/memory simulator.

The definitions below are a shallow embedding of the simulator's C++
sources (src/include/base and src/src/base).  Simulated time is modelled
as a natural number of picoseconds (the default SystemC time resolution),
so an `sc_time(2.5, SC_NS)` literal becomes the natural number `2500`.
Cooperative `wait(t)` calls become explicit time arithmetic; code paths
whose delays are irrelevant to the stated properties carry the delay as an
explicit parameter.  Randomness (`std::mt19937` draws) is modelled by
explicit oracle parameters giving the outcome of each potential draw.
Blocking channel reads become sequential processing of an input list, and
a busy-wait loop that cannot terminate in the single-task sequential
semantics is modelled by an `Option` result (`none` = the task would
block forever).
-/

set_option autoImplicit false

namespace MoonSim

/-- Structural helper for `ctz`: the first argument is fuel that strictly
dominates the number of halvings, so the recursion is structural and reduces
inside the kernel. -/
def ctzAux : Nat → Nat → Nat
  | _, 0 => 0
  | 0, _ + 1 => 0
  | fuel + 1, n + 1 =>
    if (n + 1) % 2 = 1 then 0
    else 1 + ctzAux fuel ((n + 1) / 2)

/-- Count of trailing zero bits, mirroring `__builtin_ctz` on the values the
simulator uses (the C++ builtin is undefined at 0; we return 0 there, and no
modelled call site passes 0). -/
def ctz (n : Nat) : Nat := ctzAux n n

/-! ## DRAM controller data model (src/include/base/dram_controller.h) -/

/-- Memory technology types (`enum class MemoryType`). -/
inductive MemoryType
  | DDR4
  | DDR5
  | LPDDR5
deriving DecidableEq, Repr

/-- Refresh schemes (`enum class RefreshScheme`). -/
inductive RefreshScheme
  | ALL_BANK_REFRESH
  | SAME_BANK_REFRESH
  | PER_BANK_REFRESH
  | DISTRIBUTED_REFRESH
  | REFRESH_MANAGEMENT_UNIT
deriving DecidableEq, Repr

/-- Speed grades (`enum class SpeedGrade`). -/
inductive SpeedGrade
  | DDR4_2400
  | DDR4_2666
  | DDR4_3200
  | DDR4_4266
  | DDR5_4800
  | DDR5_5600
  | DDR5_6400
  | DDR5_8400
  | LPDDR5_5500
  | LPDDR5_6400
  | LPDDR5_7500
  | LPDDR5_8533
deriving DecidableEq, Repr

/-- DRAM timing parameters (`struct DramTiming`); every `sc_time` field is a
number of picoseconds. -/
structure DramTiming where
  tCL : Nat
  tRCD : Nat
  tRP : Nat
  tRAS : Nat
  tWR : Nat
  tRFC : Nat
  tREFI : Nat
  tBurst : Nat
  tCCDL : Nat
  tCCDS : Nat
  tRRDL : Nat
  tRRDS : Nat
  refresh_scheme : RefreshScheme
  tRFCab : Nat
  tRFCsb : Nat
  tRFCpb : Nat
  tREFIpb : Nat
  refresh_granularity : Nat
deriving DecidableEq, Repr

/-- Default `DramTiming` constructor values (approximate DDR4-3200). -/
def DramTiming.default : DramTiming :=
  { tCL := 14000
    tRCD := 14000
    tRP := 14000
    tRAS := 32000
    tWR := 15000
    tRFC := 350000
    tREFI := 7800000
    tBurst := 4000
    tCCDL := 4000
    tCCDS := 4000
    tRRDL := 6000
    tRRDS := 4000
    refresh_scheme := RefreshScheme.ALL_BANK_REFRESH
    tRFCab := 350000
    tRFCsb := 350000
    tRFCpb := 90000
    tREFIpb := 1950000
    refresh_granularity := 8192 }

/-- Factory `DramTimingFactory::createDDR4Timing`: starts from the default
record, overrides per speed grade, then sets the common DDR4 parameters.
Grades other than the four DDR4 entries fall into the `DDR4_3200` default
branch of the C++ switch. -/
def createDDR4Timing (grade : SpeedGrade) : DramTiming :=
  let timing := DramTiming.default
  let timing :=
    match grade with
    | SpeedGrade.DDR4_2400 =>
      { timing with tCL := 15000, tRCD := 15000, tRP := 15000,
                    tRAS := 35000, tBurst := 3330 }
    | SpeedGrade.DDR4_2666 =>
      { timing with tCL := 13500, tRCD := 13500, tRP := 13500,
                    tRAS := 31500, tBurst := 3000 }
    | SpeedGrade.DDR4_4266 =>
      { timing with tCL := 13000, tRCD := 13000, tRP := 13000,
                    tRAS := 30000, tBurst := 1870 }
    | _ =>
      { timing with tCL := 14000, tRCD := 14000, tRP := 14000,
                    tRAS := 32000, tBurst := 2500 }
  { timing with
    tWR := 15000
    tRFC := 350000
    tREFI := 7800000
    tCCDL := 4000
    tCCDS := 4000
    tRRDL := 6000
    tRRDS := 4000
    refresh_scheme := RefreshScheme.ALL_BANK_REFRESH
    tRFCab := 350000
    tRFCsb := 350000
    tRFCpb := 60000
    tREFIpb := 488000
    refresh_granularity := 8192 }

/-- Factory `DramTimingFactory::createDDR5Timing`. -/
def createDDR5Timing (grade : SpeedGrade) : DramTiming :=
  let timing := DramTiming.default
  let timing :=
    match grade with
    | SpeedGrade.DDR5_5600 =>
      { timing with tCL := 9000, tRCD := 9000, tRP := 9000,
                    tRAS := 23000, tBurst := 1430 }
    | SpeedGrade.DDR5_6400 =>
      { timing with tCL := 8000, tRCD := 8000, tRP := 8000,
                    tRAS := 21000, tBurst := 1250 }
    | SpeedGrade.DDR5_8400 =>
      { timing with tCL := 7000, tRCD := 7000, tRP := 7000,
                    tRAS := 18000, tBurst := 950 }
    | _ =>
      { timing with tCL := 10000, tRCD := 10000, tRP := 10000,
                    tRAS := 25000, tBurst := 1670 }
  { timing with
    tWR := 12000
    tRFC := 295000
    tREFI := 3900000
    tCCDL := 6000
    tCCDS := 4000
    tRRDL := 6000
    tRRDS := 4000
    refresh_scheme := RefreshScheme.SAME_BANK_REFRESH
    tRFCab := 295000
    tRFCsb := 100000
    tRFCpb := 50000
    tREFIpb := 244000
    refresh_granularity := 16384 }

/-- Factory `DramTimingFactory::createLPDDR5Timing`. -/
def createLPDDR5Timing (grade : SpeedGrade) : DramTiming :=
  let timing := DramTiming.default
  let timing :=
    match grade with
    | SpeedGrade.LPDDR5_5500 =>
      { timing with tCL := 8000, tRCD := 8000, tRP := 8000,
                    tRAS := 18000, tBurst := 1450 }
    | SpeedGrade.LPDDR5_7500 =>
      { timing with tCL := 6000, tRCD := 6000, tRP := 6000,
                    tRAS := 14000, tBurst := 1070 }
    | SpeedGrade.LPDDR5_8533 =>
      { timing with tCL := 5000, tRCD := 5000, tRP := 5000,
                    tRAS := 13000, tBurst := 940 }
    | _ =>
      { timing with tCL := 7000, tRCD := 7000, tRP := 7000,
                    tRAS := 16000, tBurst := 1250 }
  { timing with
    tWR := 10000
    tRFC := 180000
    tREFI := 3900000
    tCCDL := 5000
    tCCDS := 3000
    tRRDL := 5000
    tRRDS := 3000
    refresh_scheme := RefreshScheme.DISTRIBUTED_REFRESH
    tRFCab := 180000
    tRFCsb := 90000
    tRFCpb := 30000
    tREFIpb := 244000
    refresh_granularity := 16384 }

/-- Claim C8: the DRAM timing factory reproduces the canonical preset table
for every listed speed grade — DDR4-3200 yields tCL=14 ns, tRCD=14 ns,
tRP=14 ns, tRAS=32 ns, tWR=15 ns, tRFC=350 ns, tREFI=7800 ns, tBurst=2.5 ns;
DDR5-4800 yields tCL=10 ns, tRCD=10 ns, tRP=10 ns, tRAS=25 ns, tRFC=295 ns,
tREFI=3900 ns, tCCDS=4 ns, tCCDL=6 ns; LPDDR5-6400 yields tCL=7 ns,
tRCD=7 ns, tRP=7 ns, tRAS=16 ns, tRFC=180 ns, tREFI=3900 ns.  Times below
are in picoseconds. -/
theorem dram_timing_presets_canonical :
    (createDDR4Timing SpeedGrade.DDR4_3200).tCL = 14000 ∧
    (createDDR4Timing SpeedGrade.DDR4_3200).tRCD = 14000 ∧
    (createDDR4Timing SpeedGrade.DDR4_3200).tRP = 14000 ∧
    (createDDR4Timing SpeedGrade.DDR4_3200).tRAS = 32000 ∧
    (createDDR4Timing SpeedGrade.DDR4_3200).tWR = 15000 ∧
    (createDDR4Timing SpeedGrade.DDR4_3200).tRFC = 350000 ∧
    (createDDR4Timing SpeedGrade.DDR4_3200).tREFI = 7800000 ∧
    (createDDR4Timing SpeedGrade.DDR4_3200).tBurst = 2500 ∧
    (createDDR5Timing SpeedGrade.DDR5_4800).tCL = 10000 ∧
    (createDDR5Timing SpeedGrade.DDR5_4800).tRCD = 10000 ∧
    (createDDR5Timing SpeedGrade.DDR5_4800).tRP = 10000 ∧
    (createDDR5Timing SpeedGrade.DDR5_4800).tRAS = 25000 ∧
    (createDDR5Timing SpeedGrade.DDR5_4800).tRFC = 295000 ∧
    (createDDR5Timing SpeedGrade.DDR5_4800).tREFI = 3900000 ∧
    (createDDR5Timing SpeedGrade.DDR5_4800).tCCDS = 4000 ∧
    (createDDR5Timing SpeedGrade.DDR5_4800).tCCDL = 6000 ∧
    (createLPDDR5Timing SpeedGrade.LPDDR5_6400).tCL = 7000 ∧
    (createLPDDR5Timing SpeedGrade.LPDDR5_6400).tRCD = 7000 ∧
    (createLPDDR5Timing SpeedGrade.LPDDR5_6400).tRP = 7000 ∧
    (createLPDDR5Timing SpeedGrade.LPDDR5_6400).tRAS = 16000 ∧
    (createLPDDR5Timing SpeedGrade.LPDDR5_6400).tRFC = 180000 ∧
    (createLPDDR5Timing SpeedGrade.LPDDR5_6400).tREFI = 3900000 := by
  decide

/-! ## DRAM bank state machine (src/include/base/dram_controller.h)

The controller is modelled sequentially: the single `memory_controller_process`
task handles one packet at a time, and the refresh task's `ALL_BANK` tick is an
explicit operation interleaved between packets.  Each operation returns the new
simulation time, the new state, and the list of `(time, bank)` snapshots
observable while the task is suspended in a `wait` — the transient bank states
that exist "at a simulation time".  The bank-conflict busy-wait loop of
`process_dram_request` cannot terminate in this single-task semantics (no other
task changes the bank state), so that branch yields `none`. -/

/-- Packet commands (`enum class Command` in base_packet.h). -/
inductive Command
  | READ
  | WRITE
deriving DecidableEq, Repr

/-- DRAM bank state (`enum class BankState`). -/
inductive BankState
  | IDLE
  | ACTIVATING
  | ACTIVE
  | READING
  | WRITING
  | PRECHARGING
  | REFRESHING
deriving DecidableEq, Repr

/-- Sentinel for "no active row" (`0xFFFFFFFF`). -/
def NONE_ROW : Nat := 0xFFFFFFFF

/-- DRAM bank (`struct DramBank`), times in picoseconds.  The `bank_group_id`,
`bank_id` and `pending_requests` fields are bookkeeping never read by the
modelled logic and are omitted. -/
structure DramBank where
  state : BankState
  active_row : Nat
  last_activate_time : Nat
  last_precharge_time : Nat
  last_read_time : Nat
  last_write_time : Nat
deriving DecidableEq, Repr

/-- Fresh bank (the `DramBank()` constructor). -/
def DramBank.init : DramBank :=
  { state := BankState.IDLE
    active_row := NONE_ROW
    last_activate_time := 0
    last_precharge_time := 0
    last_read_time := 0
    last_write_time := 0 }

/-- DRAM statistics counters (`struct DramStats`), restricted to the fields
the modelled operations touch; latencies in picoseconds. -/
structure DramStats where
  total_requests : Nat
  read_requests : Nat
  write_requests : Nat
  row_hits : Nat
  row_misses : Nat
  page_empty_hits : Nat
  refresh_cycles : Nat
  bank_conflicts : Nat
  total_read_latency : Nat
  total_write_latency : Nat
  all_bank_refreshes : Nat
  total_refresh_latency : Nat
  refresh_conflicts : Nat
deriving DecidableEq, Repr

/-- Zero-initialised statistics (the `DramStats()` constructor). -/
def DramStats.init : DramStats :=
  { total_requests := 0, read_requests := 0, write_requests := 0
    row_hits := 0, row_misses := 0, page_empty_hits := 0
    refresh_cycles := 0, bank_conflicts := 0
    total_read_latency := 0, total_write_latency := 0
    all_bank_refreshes := 0, total_refresh_latency := 0
    refresh_conflicts := 0 }

/-- Static controller configuration: the template/constructor parameters of
`DramController` used by the modelled paths, in the single-bank-group,
single-rank instantiation (`NUM_BANK_GROUPS = NUM_RANKS = 1`, the DDR4
default), so the bank array has `numBanks` entries. -/
structure DramCfg where
  timing : DramTiming
  numBanks : Nat
  page_size : Nat
  auto_precharge : Bool

/-- Address decode `get_bank_id`: middle bits above the 6-bit line offset. -/
def get_bank_id (cfg : DramCfg) (address : Nat) : Nat :=
  (address >>> 6) &&& (cfg.numBanks - 1)

/-- Address decode `get_row`: upper bits above offset, bank and column bits. -/
def get_row (cfg : DramCfg) (address : Nat) : Nat :=
  address >>> (6 + ctz cfg.numBanks + ctz (cfg.page_size / 64))

/-- Address decode `get_column`: line-index bits within the page. -/
def get_column (cfg : DramCfg) (address : Nat) : Nat :=
  (address >>> 6) &&& (cfg.page_size / 64 - 1)

/-- One `(time, bank)` observation made while the controller task is suspended
in a `wait`. -/
abbrev BankSnap := Nat × DramBank

/-- `DramController::activate_row`: wait out the remainder of tRP since the
bank's last precharge, enter `ACTIVATING` with the new row and record
`last_activate_time`, wait tRCD, end `ACTIVE`. -/
def activate_row (t : DramTiming) (now : Nat) (bank : DramBank) (row : Nat) :
    Nat × DramBank × List BankSnap :=
  let time_since_precharge := now - bank.last_precharge_time
  let (now1, waitSnaps) :=
    if time_since_precharge < t.tRP then
      (now + (t.tRP - time_since_precharge), [(now, bank)])
    else
      (now, ([] : List BankSnap))
  let bank1 : DramBank :=
    { bank with
      state := BankState.ACTIVATING
      active_row := row
      last_activate_time := now1 }
  let now2 := now1 + t.tRCD
  let bank2 := { bank1 with state := BankState.ACTIVE }
  (now2, bank2, waitSnaps ++ [(now1, bank1)])

/-- `DramController::precharge_bank`: wait out the remainder of tRAS since the
bank's last activate, enter `PRECHARGING`, wait tRP, end `IDLE` with
`last_precharge_time` recorded and `active_row` cleared. -/
def precharge_bank (t : DramTiming) (now : Nat) (bank : DramBank) :
    Nat × DramBank × List BankSnap :=
  let time_since_activate := now - bank.last_activate_time
  let (now1, waitSnaps) :=
    if time_since_activate < t.tRAS then
      (now + (t.tRAS - time_since_activate), [(now, bank)])
    else
      (now, ([] : List BankSnap))
  let bank1 := { bank with state := BankState.PRECHARGING }
  let now2 := now1 + t.tRP
  let bank2 :=
    { bank1 with
      state := BankState.IDLE
      last_precharge_time := now2
      active_row := NONE_ROW }
  (now2, bank2, waitSnaps ++ [(now1, bank1)])

/-- `DramController::perform_read`: enter `READING`, wait tCL + tBurst, back to
`ACTIVE`. -/
def perform_read (t : DramTiming) (now : Nat) (bank : DramBank) (column : Nat) :
    Nat × DramBank × List BankSnap :=
  let _ := column
  let bank1 := { bank with state := BankState.READING, last_read_time := now }
  let now1 := now + (t.tCL + t.tBurst)
  let bank2 := { bank1 with state := BankState.ACTIVE }
  (now1, bank2, [(now, bank1)])

/-- `DramController::perform_write`: enter `WRITING`, wait tBurst, back to
`ACTIVE`. -/
def perform_write (t : DramTiming) (now : Nat) (bank : DramBank) (column : Nat) :
    Nat × DramBank × List BankSnap :=
  let _ := column
  let bank1 := { bank with state := BankState.WRITING, last_write_time := now }
  let now1 := now + t.tBurst
  let bank2 := { bank1 with state := BankState.ACTIVE }
  (now1, bank2, [(now, bank1)])

/-- Controller simulation state: time, the bank array (as a map from bank
index), and the statistics. -/
structure DramSim where
  now : Nat
  banks : Nat → DramBank
  stats : DramStats

/-- Initial controller state. -/
def DramSim.init : DramSim :=
  { now := 0, banks := fun _ => DramBank.init, stats := DramStats.init }

/-- Column-access tail of `DramController::process_dram_request` (steps 4–5 of
§4.5): perform the READ or WRITE on the open row, then the optional
auto-precharge. -/
def dram_column_phase (cfg : DramCfg) (cmd : Command)
    (now1 : Nat) (bank1 : DramBank) (col : Nat) :
    Nat × DramBank × List BankSnap :=
  let (now2, bank2, snaps2) :=
    match cmd with
    | Command.READ => perform_read cfg.timing now1 bank1 col
    | Command.WRITE => perform_write cfg.timing now1 bank1 col
  let (now3, bank3, snaps3) :=
    if cfg.auto_precharge then precharge_bank cfg.timing now2 bank2
    else (now2, bank2, ([] : List BankSnap))
  (now3, bank3, snaps2 ++ snaps3)

/-- `DramController::process_dram_request`: decode, handle the bank-conflict
busy-wait (which never terminates in the sequential semantics, hence `none`),
then the page-empty / row-hit / row-miss cases followed by the column phase. -/
def process_dram_request (cfg : DramCfg) (s : DramSim)
    (cmd : Command) (address : Nat) :
    Option (DramSim × List BankSnap) :=
  let bank_id := get_bank_id cfg address
  let row := get_row cfg address
  let col := get_column cfg address
  let bank := s.banks bank_id
  if bank.state ≠ BankState.IDLE ∧ bank.state ≠ BankState.ACTIVE then
    none
  else
    let (now1, bank1, snaps1, stats1) :=
      if bank.state = BankState.IDLE then
        let (n, b, sn) := activate_row cfg.timing s.now bank row
        (n, b, sn, { s.stats with page_empty_hits := s.stats.page_empty_hits + 1 })
      else if bank.active_row = row then
        (s.now, bank, ([] : List BankSnap),
         { s.stats with row_hits := s.stats.row_hits + 1 })
      else
        let (n0, b0, sn0) := precharge_bank cfg.timing s.now bank
        let (n, b, sn) := activate_row cfg.timing n0 b0 row
        (n, b, sn0 ++ sn, { s.stats with row_misses := s.stats.row_misses + 1 })
    let (now3, bank3, snaps23) := dram_column_phase cfg cmd now1 bank1 col
    some ({ now := now3
            banks := Function.update s.banks bank_id bank3
            stats := stats1 },
          snaps1 ++ snaps23)

/-- Per-packet body of `DramController::memory_controller_process`: process the
request, then account latency and the total/read/write counters. -/
def memory_controller_step (cfg : DramCfg) (s : DramSim)
    (cmd : Command) (address : Nat) :
    Option (DramSim × List BankSnap) :=
  match process_dram_request cfg s cmd address with
  | none => none
  | some (s1, snaps) =>
    let latency := s1.now - s.now
    let stats1 := { s1.stats with total_requests := s1.stats.total_requests + 1 }
    let stats2 :=
      match cmd with
      | Command.READ =>
        { stats1 with
          read_requests := stats1.read_requests + 1
          total_read_latency := stats1.total_read_latency + latency }
      | Command.WRITE =>
        { stats1 with
          write_requests := stats1.write_requests + 1
          total_write_latency := stats1.total_write_latency + latency }
    some ({ s1 with stats := stats2 }, snaps)

/-- Per-bank body of the precharge-and-mark loop inside
`DramController::perform_all_bank_refresh`: precharge the bank if `ACTIVE`,
then mark it `REFRESHING`. -/
def refresh_precharge_step (t : DramTiming)
    (acc : Nat × (Nat → DramBank) × List BankSnap) (i : Nat) :
    Nat × (Nat → DramBank) × List BankSnap :=
  let (now, banks, snaps) := acc
  let bank := banks i
  let (now1, bank1, snaps1) :=
    if bank.state = BankState.ACTIVE then precharge_bank t now bank
    else (now, bank, ([] : List BankSnap))
  let bank2 := { bank1 with state := BankState.REFRESHING }
  (now1, Function.update banks i bank2, snaps ++ snaps1 ++ [(now1, bank2)])

/-- `DramController::perform_all_bank_refresh`: detect a conflict (any bank not
`IDLE`/`REFRESHING`), in that case count it and stall 2·tBurst; precharge every
`ACTIVE` bank and mark all banks `REFRESHING`; wait tRFCab; return all banks to
`IDLE`. -/
def perform_all_bank_refresh (cfg : DramCfg) (s : DramSim) :
    DramSim × List BankSnap :=
  let conflict := (List.range cfg.numBanks).any fun i =>
    ((s.banks i).state != BankState.IDLE) &&
      ((s.banks i).state != BankState.REFRESHING)
  let now0 := if conflict then s.now + cfg.timing.tBurst * 2 else s.now
  let stats0 :=
    if conflict then
      { s.stats with refresh_conflicts := s.stats.refresh_conflicts + 1 }
    else
      s.stats
  let refresh_start := now0
  let (now1, banks1, snaps1) :=
    (List.range cfg.numBanks).foldl (refresh_precharge_step cfg.timing)
      (now0, s.banks, ([] : List BankSnap))
  let now2 := now1 + cfg.timing.tRFCab
  let banks2 := fun i =>
    if i < cfg.numBanks then { banks1 i with state := BankState.IDLE }
    else banks1 i
  let stats1 :=
    { stats0 with
      all_bank_refreshes := stats0.all_bank_refreshes + 1
      total_refresh_latency := stats0.total_refresh_latency + (now2 - refresh_start) }
  ({ now := now2, banks := banks2, stats := stats1 }, snaps1)

/-- Controller-level operations of the sequential model: a memory request
arriving on `mem_in`, or an `ALL_BANK` tick of `refresh_process`. -/
inductive DramOp
  | request (cmd : Command) (address : Nat)
  | refreshAllBank
deriving DecidableEq, Repr

/-- Serialized execution of a list of controller operations, collecting every
wait-time snapshot; `none` when a request hits the non-terminating
bank-conflict busy-wait.  This runner schedules each `ALL_BANK` refresh tick
as a whole operation between packets, whereas the two SystemC tasks interleave
at every `wait` and `perform_all_bank_refresh` can mutate banks in the middle
of a request.  The coarsening is sound for the statistics-counter relations —
every request increments the same counters on every path through
`process_dram_request`, and refresh touches only the disjoint refresh
counters — but it drops transient bank states (a mid-request bank stamped
`REFRESHING`, or `IDLE` at the end of a refresh, with its row still set), so
row/state observation theorems are stated over `dram_run_requests`, the
refresh-disabled configuration, instead. -/
def dram_run (cfg : DramCfg) : List DramOp → DramSim → Option (DramSim × List BankSnap)
  | [], s => some (s, [])
  | DramOp.request cmd addr :: ops, s =>
    match memory_controller_step cfg s cmd addr with
    | none => none
    | some (s1, snaps) =>
      match dram_run cfg ops s1 with
      | none => none
      | some (s2, rest) => some (s2, snaps ++ rest)
  | DramOp.refreshAllBank :: ops, s =>
    let (s1, snaps) := perform_all_bank_refresh cfg s
    let s2 := { s1 with stats := { s1.stats with refresh_cycles := s1.stats.refresh_cycles + 1 } }
    match dram_run cfg ops s2 with
    | none => none
    | some (sf, rest) => some (sf, snaps ++ rest)

/-- Sequential execution of `memory_controller_process` alone on a stream of
requests — the `refresh_enable = false` configuration.  The constructor
spawns the refresh task only conditionally (`if (m_refresh_enable)
SC_THREAD(refresh_process)`), so in this configuration the memory-controller
task is the only task that ever touches the banks: its sequential,
one-packet-at-a-time execution is exact, with no other task to interleave
with at its wait points. -/
def dram_run_requests (cfg : DramCfg) :
    List (Command × Nat) → DramSim → Option (DramSim × List BankSnap)
  | [], s => some (s, [])
  | (cmd, addr) :: reqs, s =>
    match memory_controller_step cfg s cmd addr with
    | none => none
    | some (s1, snaps) =>
      match dram_run_requests cfg reqs s1 with
      | none => none
      | some (s2, rest) => some (s2, snaps ++ rest)

/-- Snapshots of a refresh-disabled run from the initial state (observation
helper). -/
def dram_run_requests_snaps (cfg : DramCfg) (reqs : List (Command × Nat)) :
    List BankSnap :=
  match dram_run_requests cfg reqs DramSim.init with
  | none => []
  | some (_, snaps) => snaps

/-! ## DRAM invariants and per-operation lemmas -/

/-- Row-state invariant that actually holds of the code: a bank holds a real
row number exactly while it is in one of the row-occupying states, which
include the transient `ACTIVATING` and `PRECHARGING` phases (the row is
assigned before the tRCD wait and cleared only after the tRP wait). -/
def rowInv (b : DramBank) : Prop :=
  b.active_row ≠ NONE_ROW ↔
    (b.state = BankState.ACTIVATING ∨ b.state = BankState.ACTIVE ∨
     b.state = BankState.READING ∨ b.state = BankState.WRITING ∨
     b.state = BankState.PRECHARGING)

instance (b : DramBank) : Decidable (rowInv b) := by
  unfold rowInv
  infer_instance

/-- Row-state predicate as literally claimed by the specification: a row is
held exactly in the `ACTIVE`, `READING`, `WRITING` states. -/
def rowInvSpec (b : DramBank) : Prop :=
  b.active_row ≠ NONE_ROW ↔
    (b.state = BankState.ACTIVE ∨ b.state = BankState.READING ∨
     b.state = BankState.WRITING)

instance (b : DramBank) : Decidable (rowInvSpec b) := by
  unfold rowInvSpec
  infer_instance

/-- Address bound carried by a controller operation: packet addresses are
`uint32_t`. -/
def addrOK : DramOp → Prop
  | DramOp.request _ a => a < 4294967296
  | DramOp.refreshAllBank => True

instance (op : DramOp) : Decidable (addrOK op) := by
  cases op <;> simp only [addrOK] <;> infer_instance

/-- Combined run invariant: every bank satisfies the row invariant, every bank
rests in `IDLE` or `ACTIVE` between operations, and the §8 counter relations
hold. -/
def goodSim (s : DramSim) : Prop :=
  (∀ i, rowInv (s.banks i)) ∧
  (∀ i, (s.banks i).state = BankState.IDLE ∨ (s.banks i).state = BankState.ACTIVE) ∧
  s.stats.total_requests = s.stats.read_requests + s.stats.write_requests ∧
  s.stats.row_hits + s.stats.row_misses + s.stats.page_empty_hits
    = s.stats.total_requests

theorem goodSim_init : goodSim DramSim.init := by
  refine ⟨fun i => ?_, fun i => ?_, rfl, rfl⟩ <;> simp [DramSim.init, DramBank.init, rowInv]

theorem get_row_ne_none (cfg : DramCfg) (a : Nat) (h : a < 4294967296) :
    get_row cfg a ≠ NONE_ROW := by
  have h6 : 6 ≤ 6 + ctz cfg.numBanks + ctz (cfg.page_size / 64) := by omega
  have hle : get_row cfg a ≤ a >>> 6 := by
    unfold get_row
    rw [Nat.shiftRight_eq_div_pow, Nat.shiftRight_eq_div_pow]
    exact Nat.div_le_div_left (Nat.pow_le_pow_right (by norm_num) h6) (by positivity)
  have h64 : a >>> 6 < 67108864 := by
    rw [Nat.shiftRight_eq_div_pow]
    omega
  unfold NONE_ROW
  omega

theorem activate_row_result_state (t : DramTiming) (now : Nat) (b : DramBank) (row : Nat) :
    (activate_row t now b row).2.1.state = BankState.ACTIVE ∧
    (activate_row t now b row).2.1.active_row = row := by
  simp [activate_row]

theorem activate_row_snaps_inv (t : DramTiming) (now : Nat) (b : DramBank) (row : Nat)
    (hrow : row ≠ NONE_ROW) (hb : rowInv b) :
    ∀ p ∈ (activate_row t now b row).2.2, rowInv p.2 := by
  intro p hp
  simp only [activate_row] at hp
  split at hp <;>
    simp only [List.mem_append, List.mem_singleton, List.mem_cons,
      List.not_mem_nil, false_or, or_false, List.nil_append] at hp
  · rcases hp with hp | hp <;> subst hp
    · exact hb
    · simp [rowInv, hrow]
  · subst hp
    simp [rowInv, hrow]

theorem precharge_bank_result_state (t : DramTiming) (now : Nat) (b : DramBank) :
    (precharge_bank t now b).2.1.state = BankState.IDLE ∧
    (precharge_bank t now b).2.1.active_row = NONE_ROW := by
  simp [precharge_bank]

theorem precharge_bank_snaps_inv (t : DramTiming) (now : Nat) (b : DramBank)
    (hst : b.state = BankState.ACTIVE) (hb : rowInv b) :
    ∀ p ∈ (precharge_bank t now b).2.2, rowInv p.2 := by
  have hrow : b.active_row ≠ NONE_ROW := hb.mpr (by simp [hst])
  intro p hp
  simp only [precharge_bank] at hp
  split at hp <;>
    simp only [List.mem_append, List.mem_singleton, List.mem_cons,
      List.not_mem_nil, false_or, or_false, List.nil_append] at hp
  · rcases hp with hp | hp <;> subst hp
    · exact hb
    · simp [rowInv, hrow]
  · subst hp
    simp [rowInv, hrow]

theorem perform_read_result_state (t : DramTiming) (now : Nat) (b : DramBank) (col : Nat) :
    (perform_read t now b col).2.1.state = BankState.ACTIVE ∧
    (perform_read t now b col).2.1.active_row = b.active_row := by
  exact ⟨rfl, rfl⟩

theorem perform_read_snaps_inv (t : DramTiming) (now : Nat) (b : DramBank) (col : Nat)
    (hrow : b.active_row ≠ NONE_ROW) :
    ∀ p ∈ (perform_read t now b col).2.2, rowInv p.2 := by
  intro p hp
  simp only [perform_read, List.mem_singleton] at hp
  subst hp
  simp [rowInv, hrow]

theorem perform_write_result_state (t : DramTiming) (now : Nat) (b : DramBank) (col : Nat) :
    (perform_write t now b col).2.1.state = BankState.ACTIVE ∧
    (perform_write t now b col).2.1.active_row = b.active_row := by
  exact ⟨rfl, rfl⟩

theorem perform_write_snaps_inv (t : DramTiming) (now : Nat) (b : DramBank) (col : Nat)
    (hrow : b.active_row ≠ NONE_ROW) :
    ∀ p ∈ (perform_write t now b col).2.2, rowInv p.2 := by
  intro p hp
  simp only [perform_write, List.mem_singleton] at hp
  subst hp
  simp [rowInv, hrow]

theorem dram_column_phase_spec (cfg : DramCfg) (cmd : Command)
    (now1 : Nat) (bank1 : DramBank) (col : Nat)
    (hst : bank1.state = BankState.ACTIVE)
    (hrow : bank1.active_row ≠ NONE_ROW) :
    ((dram_column_phase cfg cmd now1 bank1 col).2.1.state = BankState.IDLE ∨
     (dram_column_phase cfg cmd now1 bank1 col).2.1.state = BankState.ACTIVE) ∧
    rowInv (dram_column_phase cfg cmd now1 bank1 col).2.1 ∧
    (∀ p ∈ (dram_column_phase cfg cmd now1 bank1 col).2.2, rowInv p.2) := by
  have key : ∀ (now2 : Nat) (bank2 : DramBank) (snaps2 : List BankSnap),
      bank2.state = BankState.ACTIVE → bank2.active_row ≠ NONE_ROW →
      (∀ p ∈ snaps2, rowInv p.2) →
      ∀ (r : Nat × DramBank × List BankSnap),
        r = (let pr := if cfg.auto_precharge then precharge_bank cfg.timing now2 bank2
                       else (now2, bank2, ([] : List BankSnap))
             (pr.1, pr.2.1, snaps2 ++ pr.2.2)) →
        (r.2.1.state = BankState.IDLE ∨ r.2.1.state = BankState.ACTIVE) ∧
        rowInv r.2.1 ∧ (∀ p ∈ r.2.2, rowInv p.2) := by
    intro now2 bank2 snaps2 hst2 hrow2 hsn2 r hr
    have hrowinv2 : rowInv bank2 := by simp [rowInv, hst2, hrow2]
    by_cases hauto : cfg.auto_precharge
    · simp only [hauto, if_true] at hr
      subst hr
      have h3 := precharge_bank_result_state cfg.timing now2 bank2
      have hsn3 := precharge_bank_snaps_inv cfg.timing now2 bank2 hst2 hrowinv2
      refine ⟨Or.inl h3.1, ?_, ?_⟩
      · simp [rowInv, h3.1, h3.2, NONE_ROW]
      · intro p hp
        rcases List.mem_append.mp hp with hp | hp
        · exact hsn2 p hp
        · exact hsn3 p hp
    · simp only [hauto, if_false] at hr
      subst hr
      refine ⟨Or.inr hst2, ?_, ?_⟩
      · simp [rowInv, hst2, hrow2]
      · intro p hp
        rcases List.mem_append.mp hp with hp | hp
        · exact hsn2 p hp
        · simp at hp
  cases cmd
  case READ =>
    have h1 := perform_read_result_state cfg.timing now1 bank1 col
    exact key (perform_read cfg.timing now1 bank1 col).1
      (perform_read cfg.timing now1 bank1 col).2.1
      (perform_read cfg.timing now1 bank1 col).2.2
      h1.1 (h1.2 ▸ hrow)
      (perform_read_snaps_inv cfg.timing now1 bank1 col hrow) _ rfl
  case WRITE =>
    have h1 := perform_write_result_state cfg.timing now1 bank1 col
    exact key (perform_write cfg.timing now1 bank1 col).1
      (perform_write cfg.timing now1 bank1 col).2.1
      (perform_write cfg.timing now1 bank1 col).2.2
      h1.1 (h1.2 ▸ hrow)
      (perform_write_snaps_inv cfg.timing now1 bank1 col hrow) _ rfl

theorem process_dram_request_spec (cfg : DramCfg) (s : DramSim) (cmd : Command)
    (address : Nat) (s1 : DramSim) (snaps : List BankSnap)
    (haddr : address < 4294967296)
    (hri : ∀ i, rowInv (s.banks i))
    (hok : ∀ i, (s.banks i).state = BankState.IDLE ∨ (s.banks i).state = BankState.ACTIVE)
    (h : process_dram_request cfg s cmd address = some (s1, snaps)) :
    (∀ i, rowInv (s1.banks i)) ∧
    (∀ i, (s1.banks i).state = BankState.IDLE ∨ (s1.banks i).state = BankState.ACTIVE) ∧
    (∀ p ∈ snaps, rowInv p.2) ∧
    (s1.stats = { s.stats with page_empty_hits := s.stats.page_empty_hits + 1 } ∨
     s1.stats = { s.stats with row_hits := s.stats.row_hits + 1 } ∨
     s1.stats = { s.stats with row_misses := s.stats.row_misses + 1 }) := by
  have hrowne : get_row cfg address ≠ NONE_ROW := get_row_ne_none cfg address haddr
  have hupd : ∀ (b3 : DramBank) (st : DramStats) (sn : List BankSnap),
      rowInv b3 →
      (b3.state = BankState.IDLE ∨ b3.state = BankState.ACTIVE) →
      (∀ p ∈ sn, rowInv p.2) →
      (st = { s.stats with page_empty_hits := s.stats.page_empty_hits + 1 } ∨
       st = { s.stats with row_hits := s.stats.row_hits + 1 } ∨
       st = { s.stats with row_misses := s.stats.row_misses + 1 }) →
      ∀ (n3 : Nat),
      s1 = { now := n3
             banks := Function.update s.banks (get_bank_id cfg address) b3
             stats := st } → snaps = sn →
      (∀ i, rowInv (s1.banks i)) ∧
      (∀ i, (s1.banks i).state = BankState.IDLE ∨ (s1.banks i).state = BankState.ACTIVE) ∧
      (∀ p ∈ snaps, rowInv p.2) ∧
      (s1.stats = { s.stats with page_empty_hits := s.stats.page_empty_hits + 1 } ∨
       s1.stats = { s.stats with row_hits := s.stats.row_hits + 1 } ∨
       s1.stats = { s.stats with row_misses := s.stats.row_misses + 1 }) := by
    intro b3 st sn hinv3 hok3 hsn hst n3 hs1 hsnaps
    subst hs1; subst hsnaps
    refine ⟨fun i => ?_, fun i => ?_, hsn, hst⟩ <;>
      rcases eq_or_ne i (get_bank_id cfg address) with hi | hi
    · subst hi; simpa [Function.update] using hinv3
    · simpa [Function.update, hi] using hri i
    · subst hi; simpa [Function.update] using hok3
    · simpa [Function.update, hi] using hok i
  unfold process_dram_request at h
  by_cases hg : (s.banks (get_bank_id cfg address)).state ≠ BankState.IDLE ∧
      (s.banks (get_bank_id cfg address)).state ≠ BankState.ACTIVE
  · rw [if_pos hg] at h
    exact Option.noConfusion h
  rw [if_neg hg] at h
  by_cases hidle : (s.banks (get_bank_id cfg address)).state = BankState.IDLE
  · -- page-empty case: activate the row in the idle bank
    rw [if_pos hidle] at h
    simp only [Option.some.injEq, Prod.mk.injEq] at h
    obtain ⟨hs1, hsnaps⟩ := h
    set bank := s.banks (get_bank_id cfg address) with hbank
    have hact := activate_row_result_state cfg.timing s.now bank (get_row cfg address)
    have hcol := dram_column_phase_spec cfg cmd
      (activate_row cfg.timing s.now bank (get_row cfg address)).1
      (activate_row cfg.timing s.now bank (get_row cfg address)).2.1
      (get_column cfg address) hact.1 (hact.2 ▸ hrowne)
    refine hupd _ _ _ hcol.2.1 ?_ ?_ (Or.inl rfl) _ hs1.symm hsnaps.symm
    · rcases hcol.1 with h1 | h1
      · exact Or.inl h1
      · exact Or.inr h1
    · intro p hp
      rcases List.mem_append.mp hp with hp | hp
      · exact activate_row_snaps_inv cfg.timing s.now bank (get_row cfg address)
          hrowne (hri _) p hp
      · exact hcol.2.2 p hp
  rw [if_neg hidle] at h
  have hactive : (s.banks (get_bank_id cfg address)).state = BankState.ACTIVE := by
    rcases hok (get_bank_id cfg address) with h1 | h1
    · exact absurd h1 hidle
    · exact h1
  by_cases hhit : (s.banks (get_bank_id cfg address)).active_row = get_row cfg address
  · -- row-hit case: proceed directly on the open row
    rw [if_pos hhit] at h
    simp only [Option.some.injEq, Prod.mk.injEq] at h
    obtain ⟨hs1, hsnaps⟩ := h
    set bank := s.banks (get_bank_id cfg address) with hbank
    have hrow0 : bank.active_row ≠ NONE_ROW := hhit ▸ hrowne
    have hcol := dram_column_phase_spec cfg cmd s.now bank
      (get_column cfg address) hactive hrow0
    refine hupd _ _ _ hcol.2.1 ?_ ?_ (Or.inr (Or.inl rfl)) _ hs1.symm hsnaps.symm
    · rcases hcol.1 with h1 | h1
      · exact Or.inl h1
      · exact Or.inr h1
    · intro p hp
      rcases List.mem_append.mp hp with hp | hp
      · simp at hp
      · exact hcol.2.2 p hp
  · -- row-miss case: precharge, then activate the new row
    rw [if_neg hhit] at h
    simp only [Option.some.injEq, Prod.mk.injEq] at h
    obtain ⟨hs1, hsnaps⟩ := h
    set bank := s.banks (get_bank_id cfg address) with hbank
    have hpre := precharge_bank_result_state cfg.timing s.now bank
    have hpreinv : rowInv (precharge_bank cfg.timing s.now bank).2.1 := by
      simp [rowInv, hpre.1, hpre.2, NONE_ROW]
    have hact := activate_row_result_state cfg.timing
      (precharge_bank cfg.timing s.now bank).1
      (precharge_bank cfg.timing s.now bank).2.1 (get_row cfg address)
    have hcol := dram_column_phase_spec cfg cmd
      (activate_row cfg.timing (precharge_bank cfg.timing s.now bank).1
        (precharge_bank cfg.timing s.now bank).2.1 (get_row cfg address)).1
      (activate_row cfg.timing (precharge_bank cfg.timing s.now bank).1
        (precharge_bank cfg.timing s.now bank).2.1 (get_row cfg address)).2.1
      (get_column cfg address) hact.1 (hact.2 ▸ hrowne)
    refine hupd _ _ _ hcol.2.1 ?_ ?_ (Or.inr (Or.inr rfl)) _ hs1.symm hsnaps.symm
    · rcases hcol.1 with h1 | h1
      · exact Or.inl h1
      · exact Or.inr h1
    · intro p hp
      rcases List.mem_append.mp hp with hp | hp
      · rcases List.mem_append.mp hp with hp | hp
        · exact precharge_bank_snaps_inv cfg.timing s.now bank hactive (hri _) p hp
        · exact activate_row_snaps_inv cfg.timing
            (precharge_bank cfg.timing s.now bank).1
            (precharge_bank cfg.timing s.now bank).2.1 (get_row cfg address)
            hrowne hpreinv p hp
      · exact hcol.2.2 p hp

theorem memory_controller_step_good (cfg : DramCfg) (s : DramSim) (cmd : Command)
    (address : Nat) (s1 : DramSim) (snaps : List BankSnap)
    (haddr : address < 4294967296)
    (hgood : goodSim s)
    (h : memory_controller_step cfg s cmd address = some (s1, snaps)) :
    goodSim s1 ∧ ∀ p ∈ snaps, rowInv p.2 := by
  obtain ⟨hri, hok, htot, hhit⟩ := hgood
  unfold memory_controller_step at h
  rcases hpr : process_dram_request cfg s cmd address with _ | ⟨s2, snaps2⟩
  · rw [hpr] at h; exact Option.noConfusion h
  rw [hpr] at h
  have hspec := process_dram_request_spec cfg s cmd address s2 snaps2 haddr hri hok hpr
  obtain ⟨hri2, hok2, hsn2, hst2⟩ := hspec
  cases cmd <;>
    simp only [Option.some.injEq, Prod.mk.injEq] at h <;>
    obtain ⟨hs1, hsnaps⟩ := h <;> subst hsnaps <;>
    refine ⟨⟨?_, ?_, ?_, ?_⟩, hsn2⟩ <;>
    (try exact fun i => hs1 ▸ hri2 i) <;>
    (try exact fun i => hs1 ▸ hok2 i) <;>
    · have hb : s1.stats.total_requests = s2.stats.total_requests + 1 ∧
          s1.stats.read_requests + s1.stats.write_requests
            = s2.stats.read_requests + s2.stats.write_requests + 1 ∧
          s1.stats.row_hits = s2.stats.row_hits ∧
          s1.stats.row_misses = s2.stats.row_misses ∧
          s1.stats.page_empty_hits = s2.stats.page_empty_hits := by
        subst hs1; simp; omega
      have hc : s2.stats.total_requests = s.stats.total_requests ∧
          s2.stats.read_requests = s.stats.read_requests ∧
          s2.stats.write_requests = s.stats.write_requests ∧
          s2.stats.row_hits + s2.stats.row_misses + s2.stats.page_empty_hits
            = s.stats.row_hits + s.stats.row_misses + s.stats.page_empty_hits + 1 := by
        rcases hst2 with h2 | h2 | h2 <;> refine ⟨?_, ?_, ?_, ?_⟩ <;>
          simp [h2] <;> try omega
      omega

/-- Bank states possible inside the all-bank refresh loop. -/
def restSt (b : DramBank) : Prop :=
  b.state = BankState.IDLE ∨ b.state = BankState.ACTIVE ∨
  b.state = BankState.REFRESHING

theorem refresh_precharge_step_spec (t : DramTiming)
    (acc : Nat × (Nat → DramBank) × List BankSnap) (i : Nat)
    (hri : ∀ j, rowInv (acc.2.1 j))
    (hok : ∀ j, restSt (acc.2.1 j)) :
    (∀ j, rowInv ((refresh_precharge_step t acc i).2.1 j)) ∧
    (∀ j, restSt ((refresh_precharge_step t acc i).2.1 j)) ∧
    ((refresh_precharge_step t acc i).2.1 i).state = BankState.REFRESHING ∧
    (∀ j, j ≠ i → (refresh_precharge_step t acc i).2.1 j = acc.2.1 j) ∧
    (∀ p ∈ (refresh_precharge_step t acc i).2.2, rowInv p.2 ∨ p ∈ acc.2.2) := by
  by_cases hA : (acc.2.1 i).state = BankState.ACTIVE
  · have hpre := precharge_bank_result_state t acc.1 (acc.2.1 i)
    have hsn := precharge_bank_snaps_inv t acc.1 (acc.2.1 i) hA (hri i)
    have hbank2 : rowInv { (precharge_bank t acc.1 (acc.2.1 i)).2.1 with
        state := BankState.REFRESHING } := by
      simp [rowInv, hpre.2, NONE_ROW]
    simp only [refresh_precharge_step, hA, if_true]
    refine ⟨fun j => ?_, fun j => ?_, ?_, fun j hj => ?_, fun p hp => ?_⟩
    · rcases eq_or_ne j i with hj | hj
      · subst hj; simpa [Function.update] using hbank2
      · simpa [Function.update, hj] using hri j
    · rcases eq_or_ne j i with hj | hj
      · subst hj; simp [Function.update, restSt]
      · simpa [Function.update, hj] using hok j
    · simp [Function.update]
    · simp [Function.update, hj]
    · simp only [List.mem_append, List.mem_singleton] at hp
      rcases hp with (hp | hp) | hp
      · exact Or.inr hp
      · exact Or.inl (hsn p hp)
      · subst hp; exact Or.inl hbank2
  · have hrow0 : (acc.2.1 i).active_row = NONE_ROW := by
      by_contra hne
      rcases (hri i).mp hne with h | h | h | h | h <;>
        rcases hok i with h2 | h2 | h2 <;> simp_all
    have hbank2 : rowInv { acc.2.1 i with state := BankState.REFRESHING } := by
      simp [rowInv, hrow0]
    simp only [refresh_precharge_step, hA, if_false]
    refine ⟨fun j => ?_, fun j => ?_, ?_, fun j hj => ?_, fun p hp => ?_⟩
    · rcases eq_or_ne j i with hj | hj
      · subst hj; simpa [Function.update] using hbank2
      · simpa [Function.update, hj] using hri j
    · rcases eq_or_ne j i with hj | hj
      · subst hj; simp [Function.update, restSt]
      · simpa [Function.update, hj] using hok j
    · simp [Function.update]
    · simp [Function.update, hj]
    · simp only [List.nil_append, List.append_nil, List.mem_append,
        List.mem_singleton] at hp
      rcases hp with hp | hp
      · exact Or.inr hp
      · subst hp; exact Or.inl hbank2

theorem refresh_fold_spec (t : DramTiming) :
    ∀ (l : List Nat) (acc : Nat × (Nat → DramBank) × List BankSnap),
    (∀ j, rowInv (acc.2.1 j)) →
    (∀ j, restSt (acc.2.1 j)) →
    (∀ j, rowInv ((l.foldl (refresh_precharge_step t) acc).2.1 j)) ∧
    (∀ j, restSt ((l.foldl (refresh_precharge_step t) acc).2.1 j)) ∧
    (∀ i ∈ l, ((l.foldl (refresh_precharge_step t) acc).2.1 i).state
       = BankState.REFRESHING) ∧
    (∀ j, j ∉ l → (l.foldl (refresh_precharge_step t) acc).2.1 j = acc.2.1 j) ∧
    (∀ p ∈ (l.foldl (refresh_precharge_step t) acc).2.2,
       rowInv p.2 ∨ p ∈ acc.2.2) := by
  intro l
  induction l with
  | nil =>
    intro acc hri hok
    exact ⟨hri, hok, by simp, fun j hj => rfl, fun p hp => Or.inr hp⟩
  | cons i tl ih =>
    intro acc hri hok
    have hstep := refresh_precharge_step_spec t acc i hri hok
    have hrec := ih (refresh_precharge_step t acc i) hstep.1 hstep.2.1
    simp only [List.foldl_cons]
    refine ⟨hrec.1, hrec.2.1, ?_, ?_, ?_⟩
    · intro k hk
      rcases List.mem_cons.mp hk with hk | hk
      · subst hk
        by_cases hkl : k ∈ tl
        · exact hrec.2.2.1 k hkl
        · rw [hrec.2.2.2.1 k hkl]; exact hstep.2.2.1
      · exact hrec.2.2.1 k hk
    · intro j hj
      have hji : j ≠ i := fun he => hj (he ▸ List.mem_cons_self i tl)
      have hjtl : j ∉ tl := fun he => hj (List.mem_cons_of_mem i he)
      rw [hrec.2.2.2.1 j hjtl]
      exact hstep.2.2.2.1 j hji
    · intro p hp
      rcases hrec.2.2.2.2 p hp with h1 | h1
      · exact Or.inl h1
      · exact hstep.2.2.2.2 p h1

theorem perform_all_bank_refresh_good (cfg : DramCfg) (s : DramSim)
    (hri : ∀ i, rowInv (s.banks i))
    (hok : ∀ i, (s.banks i).state = BankState.IDLE ∨
                (s.banks i).state = BankState.ACTIVE) :
    (∀ i, rowInv ((perform_all_bank_refresh cfg s).1.banks i)) ∧
    (∀ i, ((perform_all_bank_refresh cfg s).1.banks i).state = BankState.IDLE ∨
          ((perform_all_bank_refresh cfg s).1.banks i).state = BankState.ACTIVE) ∧
    (perform_all_bank_refresh cfg s).1.stats.total_requests
      = s.stats.total_requests ∧
    (perform_all_bank_refresh cfg s).1.stats.read_requests
      = s.stats.read_requests ∧
    (perform_all_bank_refresh cfg s).1.stats.write_requests
      = s.stats.write_requests ∧
    (perform_all_bank_refresh cfg s).1.stats.row_hits = s.stats.row_hits ∧
    (perform_all_bank_refresh cfg s).1.stats.row_misses = s.stats.row_misses ∧
    (perform_all_bank_refresh cfg s).1.stats.page_empty_hits
      = s.stats.page_empty_hits ∧
    (∀ p ∈ (perform_all_bank_refresh cfg s).2, rowInv p.2) := by
  have hok3 : ∀ j, restSt (s.banks j) := by
    intro j
    rcases hok j with h | h
    · exact Or.inl h
    · exact Or.inr (Or.inl h)
  have key : ∀ (now0 : Nat) (stats0 : DramStats),
      stats0.total_requests = s.stats.total_requests →
      stats0.read_requests = s.stats.read_requests →
      stats0.write_requests = s.stats.write_requests →
      stats0.row_hits = s.stats.row_hits →
      stats0.row_misses = s.stats.row_misses →
      stats0.page_empty_hits = s.stats.page_empty_hits →
      ∀ (r : DramSim × List BankSnap),
      r = (let fr := (List.range cfg.numBanks).foldl
             (refresh_precharge_step cfg.timing) (now0, s.banks, ([] : List BankSnap))
           let now2 := fr.1 + cfg.timing.tRFCab
           ({ now := now2
              banks := fun i =>
                if i < cfg.numBanks then { fr.2.1 i with state := BankState.IDLE }
                else fr.2.1 i
              stats := { stats0 with
                all_bank_refreshes := stats0.all_bank_refreshes + 1
                total_refresh_latency := stats0.total_refresh_latency + (now2 - now0) } },
            fr.2.2)) →
      (∀ i, rowInv (r.1.banks i)) ∧
      (∀ i, (r.1.banks i).state = BankState.IDLE ∨
            (r.1.banks i).state = BankState.ACTIVE) ∧
      r.1.stats.total_requests = s.stats.total_requests ∧
      r.1.stats.read_requests = s.stats.read_requests ∧
      r.1.stats.write_requests = s.stats.write_requests ∧
      r.1.stats.row_hits = s.stats.row_hits ∧
      r.1.stats.row_misses = s.stats.row_misses ∧
      r.1.stats.page_empty_hits = s.stats.page_empty_hits ∧
      (∀ p ∈ r.2, rowInv p.2) := by
    intro now0 stats0 e1 e2 e3 e4 e5 e6 r hr
    have hfold := refresh_fold_spec cfg.timing (List.range cfg.numBanks)
      (now0, s.banks, ([] : List BankSnap)) hri hok3
    subst hr
    refine ⟨fun i => ?_, fun i => ?_, e1, e2, e3, e4, e5, e6, fun p hp => ?_⟩
    · by_cases hi : i < cfg.numBanks
      · have hrf := hfold.2.2.1 i (List.mem_range.mpr hi)
        have hrown : (((List.range cfg.numBanks).foldl
            (refresh_precharge_step cfg.timing)
            (now0, s.banks, ([] : List BankSnap))).2.1 i).active_row = NONE_ROW := by
          by_contra hne
          rcases (hfold.1 i).mp hne with h | h | h | h | h <;> simp_all
        simp only [hi, if_true]
        simp [rowInv, hrown]
      · have huntouched := hfold.2.2.2.1 i (by simpa using hi)
        simp only [hi, if_false]
        rw [huntouched]
        exact hri i
    · by_cases hi : i < cfg.numBanks
      · simp [hi]
      · have huntouched := hfold.2.2.2.1 i (by simpa using hi)
        simp only [hi, if_false]
        rw [huntouched]
        exact hok i
    · rcases hfold.2.2.2.2 p hp with h1 | h1
      · exact h1
      · simp at h1
  by_cases hconf : ((List.range cfg.numBanks).any fun i =>
      ((s.banks i).state != BankState.IDLE) &&
        ((s.banks i).state != BankState.REFRESHING)) = true
  · exact key (s.now + cfg.timing.tBurst * 2)
      { s.stats with refresh_conflicts := s.stats.refresh_conflicts + 1 }
      rfl rfl rfl rfl rfl rfl _ (by simp [perform_all_bank_refresh, hconf])
  · exact key s.now s.stats rfl rfl rfl rfl rfl rfl _
      (by simp [perform_all_bank_refresh, hconf])

theorem dram_run_good (cfg : DramCfg) :
    ∀ (ops : List DramOp) (s : DramSim) (out : DramSim × List BankSnap),
    goodSim s → (∀ op ∈ ops, addrOK op) →
    dram_run cfg ops s = some out →
    goodSim out.1 ∧ ∀ p ∈ out.2, rowInv p.2 := by
  intro ops
  induction ops with
  | nil =>
    intro s out hgood haddr h
    simp only [dram_run, Option.some.injEq] at h
    subst h
    exact ⟨hgood, by simp⟩
  | cons op tl ih =>
    intro s out hgood haddr h
    cases op with
    | request cmd addr =>
      simp only [dram_run] at h
      rcases hms : memory_controller_step cfg s cmd addr with _ | ⟨s1, snaps⟩
      · simp only [hms] at h
        exact Option.noConfusion h
      simp only [hms] at h
      rcases hrun : dram_run cfg tl s1 with _ | ⟨s2, rest⟩
      · simp only [hrun] at h
        exact Option.noConfusion h
      simp only [hrun, Option.some.injEq] at h
      subst h
      have haddr0 : addr < 4294967296 := haddr _ (List.mem_cons_self _ _)
      have hstep := memory_controller_step_good cfg s cmd addr s1 snaps haddr0 hgood hms
      have hrec := ih s1 (s2, rest) hstep.1
        (fun o ho => haddr o (List.mem_cons_of_mem _ ho)) hrun
      refine ⟨hrec.1, fun p hp => ?_⟩
      rcases List.mem_append.mp hp with hp | hp
      · exact hstep.2 p hp
      · exact hrec.2 p hp
    | refreshAllBank =>
      simp only [dram_run] at h
      have hg := perform_all_bank_refresh_good cfg s hgood.1 hgood.2.1
      have hgood2 : goodSim
          { (perform_all_bank_refresh cfg s).1 with
            stats := { (perform_all_bank_refresh cfg s).1.stats with
              refresh_cycles := (perform_all_bank_refresh cfg s).1.stats.refresh_cycles + 1 } } := by
        refine ⟨hg.1, hg.2.1, ?_, ?_⟩
        · simp only []
          rw [hg.2.2.1, hg.2.2.2.1, hg.2.2.2.2.1]
          exact hgood.2.2.1
        · simp only []
          rw [hg.2.2.1, hg.2.2.2.2.2.1, hg.2.2.2.2.2.2.1, hg.2.2.2.2.2.2.2.1]
          exact hgood.2.2.2
      rcases hrun : dram_run cfg tl
          { (perform_all_bank_refresh cfg s).1 with
            stats := { (perform_all_bank_refresh cfg s).1.stats with
              refresh_cycles := (perform_all_bank_refresh cfg s).1.stats.refresh_cycles + 1 } }
          with _ | ⟨s2, rest⟩
      · simp only [hrun] at h
        exact Option.noConfusion h
      simp only [hrun, Option.some.injEq] at h
      subst h
      have hrec := ih _ (s2, rest) hgood2
        (fun o ho => haddr o (List.mem_cons_of_mem _ ho)) hrun
      refine ⟨hrec.1, fun p hp => ?_⟩
      rcases List.mem_append.mp hp with hp | hp
      · exact hg.2.2.2.2.2.2.2.2 p hp
      · exact hrec.2 p hp

theorem dram_run_requests_good (cfg : DramCfg) :
    ∀ (reqs : List (Command × Nat)) (s : DramSim) (out : DramSim × List BankSnap),
    goodSim s → (∀ r ∈ reqs, r.2 < 4294967296) →
    dram_run_requests cfg reqs s = some out →
    goodSim out.1 ∧ ∀ p ∈ out.2, rowInv p.2 := by
  intro reqs
  induction reqs with
  | nil =>
    intro s out hgood haddr h
    simp only [dram_run_requests, Option.some.injEq] at h
    subst h
    exact ⟨hgood, by simp⟩
  | cons req tl ih =>
    intro s out hgood haddr h
    rcases req with ⟨cmd, addr⟩
    simp only [dram_run_requests] at h
    rcases hms : memory_controller_step cfg s cmd addr with _ | ⟨s1, snaps⟩
    · simp only [hms] at h
      exact Option.noConfusion h
    simp only [hms] at h
    rcases hrun : dram_run_requests cfg tl s1 with _ | ⟨s2, rest⟩
    · simp only [hrun] at h
      exact Option.noConfusion h
    simp only [hrun, Option.some.injEq] at h
    subst h
    have haddr0 : addr < 4294967296 := haddr _ (List.mem_cons_self _ _)
    have hstep := memory_controller_step_good cfg s cmd addr s1 snaps haddr0 hgood hms
    have hrec := ih s1 (s2, rest) hstep.1
      (fun r hr => haddr r (List.mem_cons_of_mem _ hr)) hrun
    refine ⟨hrec.1, fun p hp => ?_⟩
    rcases List.mem_append.mp hp with hp | hp
    · exact hstep.2 p hp
    · exact hrec.2 p hp

/-- Configuration used for concrete DRAM runs: DDR4-3200 timing, one bank,
1 KB pages, auto-precharge on (the §8 S1 setup). -/
def dramCfg1 : DramCfg :=
  { timing := createDDR4Timing SpeedGrade.DDR4_3200
    numBanks := 1
    page_size := 1024
    auto_precharge := true }

/-- Claim C2 counterexample: during an ACTIVATE the code assigns
`active_row` and enters the transient `ACTIVATING` state before the tRCD
wait, so at that simulation time `active_row ≠ 0xFFFFFFFF` while the bank
state is not in {ACTIVE, READING, WRITING}: the claimed biconditional fails
on the very first READ processed from the initial state, already with the
refresh task disabled (where the sequential model is exact). -/
theorem dram_active_row_iff_spec_counterexample :
    ∃ p ∈ dram_run_requests_snaps dramCfg1 [(Command.READ, 64)],
      ¬ rowInvSpec p.2 := by
  decide

/-- Claim C2 (amended): with the periodic refresh task disabled
(`refresh_enable = false`, so `refresh_process` is never spawned and the
memory-controller task is the only mutator of the banks), at every simulation
time and for every DRAM bank, `active_row ≠ 0xFFFFFFFF` holds if and only if
the bank's state is in {ACTIVATING, ACTIVE, READING, WRITING, PRECHARGING}:
the transient activating and precharging phases also hold the row, while
IDLE never does.  With refresh enabled no such biconditional is claimed:
`perform_all_bank_refresh` interleaves with the controller at wait points
and can stamp `REFRESHING` — and, at the end of the refresh, `IDLE` — onto a
bank whose `active_row` is still set. -/
theorem dram_active_row_iff_no_refresh (cfg : DramCfg)
    (reqs : List (Command × Nat))
    (haddr : ∀ r ∈ reqs, r.2 < 4294967296) :
    ∀ out ∈ dram_run_requests cfg reqs DramSim.init,
      (∀ p ∈ out.2, rowInv p.2) ∧ (∀ i, rowInv (out.1.banks i)) := by
  intro out hout
  have h := dram_run_requests_good cfg reqs DramSim.init out goodSim_init haddr
    (Option.mem_def.mp hout)
  exact ⟨h.2, h.1.1⟩

theorem dram_active_row_iff_no_refresh_witness :
    (∀ r ∈ [((Command.READ : Command), (64 : Nat)), (Command.WRITE, 4160)],
       r.2 < 4294967296) ∧
    (∀ out ∈ dram_run_requests dramCfg1
        [(Command.READ, 64), (Command.WRITE, 4160)] DramSim.init,
      (∀ p ∈ out.2, rowInv p.2) ∧ (∀ i, rowInv (out.1.banks i))) :=
  ⟨by decide, dram_active_row_iff_no_refresh dramCfg1 _ (by decide)⟩

/-- Claim C5: an ACTIVATE takes effect (records `last_activate_time` and
assigns the row) no earlier than `last_precharge_time + tRP` — exactly at
`max(now, last_precharge_time + tRP)`, so a wait is inserted precisely when
the elapsed time since the precharge falls short of tRP — and a PRECHARGE
begins no earlier than `last_activate_time + tRAS` and completes (records
`last_precharge_time`) exactly at `max(now, last_activate_time + tRAS) + tRP`. -/
theorem dram_activate_precharge_timing (t : DramTiming) (now : Nat)
    (bank : DramBank) (row : Nat)
    (hpre : bank.last_precharge_time ≤ now)
    (hact : bank.last_activate_time ≤ now) :
    (activate_row t now bank row).2.1.last_activate_time
      = max now (bank.last_precharge_time + t.tRP) ∧
    bank.last_precharge_time + t.tRP
      ≤ (activate_row t now bank row).2.1.last_activate_time ∧
    (activate_row t now bank row).1
      = max now (bank.last_precharge_time + t.tRP) + t.tRCD ∧
    (precharge_bank t now bank).2.1.last_precharge_time
      = max now (bank.last_activate_time + t.tRAS) + t.tRP ∧
    bank.last_activate_time + t.tRAS + t.tRP
      ≤ (precharge_bank t now bank).2.1.last_precharge_time := by
  refine ⟨?_, ?_, ?_, ?_, ?_⟩ <;>
    simp only [activate_row, precharge_bank] <;> split <;> omega

theorem dram_activate_precharge_timing_witness :
    (DramBank.init.last_precharge_time ≤ 10 ∧ DramBank.init.last_activate_time ≤ 10) ∧
    ((activate_row DramTiming.default 10 DramBank.init 5).2.1.last_activate_time
      = max 10 (DramBank.init.last_precharge_time + DramTiming.default.tRP) ∧
    DramBank.init.last_precharge_time + DramTiming.default.tRP
      ≤ (activate_row DramTiming.default 10 DramBank.init 5).2.1.last_activate_time ∧
    (activate_row DramTiming.default 10 DramBank.init 5).1
      = max 10 (DramBank.init.last_precharge_time + DramTiming.default.tRP)
          + DramTiming.default.tRCD ∧
    (precharge_bank DramTiming.default 10 DramBank.init).2.1.last_precharge_time
      = max 10 (DramBank.init.last_activate_time + DramTiming.default.tRAS)
          + DramTiming.default.tRP ∧
    DramBank.init.last_activate_time + DramTiming.default.tRAS + DramTiming.default.tRP
      ≤ (precharge_bank DramTiming.default 10 DramBank.init).2.1.last_precharge_time) :=
  ⟨⟨by decide, by decide⟩,
   dram_activate_precharge_timing DramTiming.default 10 DramBank.init 5
     (by decide) (by decide)⟩

/-- Claim C7: after the DRAM controller has serviced any sequence of
requests (with refresh ticks permitted in between), the counters satisfy
`total_requests = read_requests + write_requests` and
`row_hits + row_misses + page_empty_hits ≥ total_requests`: each serviced
request increments exactly one of the three row-outcome counters. -/
theorem dram_counter_relations (cfg : DramCfg) (ops : List DramOp)
    (haddr : ∀ op ∈ ops, addrOK op) :
    ∀ out ∈ dram_run cfg ops DramSim.init,
      out.1.stats.total_requests
        = out.1.stats.read_requests + out.1.stats.write_requests ∧
      out.1.stats.total_requests
        ≤ out.1.stats.row_hits + out.1.stats.row_misses
            + out.1.stats.page_empty_hits := by
  intro out hout
  have h := dram_run_good cfg ops DramSim.init out goodSim_init haddr
    (Option.mem_def.mp hout)
  exact ⟨h.1.2.2.1, Nat.le_of_eq h.1.2.2.2.symm⟩

theorem dram_counter_relations_witness :
    (∀ op ∈ [DramOp.request Command.READ 64, DramOp.request Command.WRITE 128,
             DramOp.refreshAllBank], addrOK op) ∧
    (∀ out ∈ dram_run dramCfg1
        [DramOp.request Command.READ 64, DramOp.request Command.WRITE 128,
         DramOp.refreshAllBank] DramSim.init,
      out.1.stats.total_requests
        = out.1.stats.read_requests + out.1.stats.write_requests ∧
      out.1.stats.total_requests
        ≤ out.1.stats.row_hits + out.1.stats.row_misses
            + out.1.stats.page_empty_hits) :=
  ⟨by decide, dram_counter_relations dramCfg1 _ (by decide)⟩

/-! ## Index allocator (src/include/base/index_allocator.h)

The allocator runs two tasks: `allocate_indices` (blocking-allocate a tag for
each arriving packet) and `release_indices` (return the tag carried by each
response).  The model processes an interleaved list of these events
sequentially.  An allocation that finds `can_allocate` false waits on the
`m_index_available` event; in a run with no further release to wake it the
task never resumes, which the driver models as `none`.  Unsigned-counter
wraparound is not modelled (counters stay far below 2^32 in modelled runs).
Alongside the code state, the driver records for each allocation the
observation `(in-flight tags before the allocation, tag returned)`, where the
in-flight set is the semantic set of tags handed out and not yet released —
the "allocated set" that §4.8 of the specification speaks about. -/

/-- Index allocation policies (`enum class AllocationPolicy`). -/
inductive AllocationPolicy
  | SEQUENTIAL
  | ROUND_ROBIN
  | RANDOM
  | POOL_BASED
deriving DecidableEq, Repr

/-- Mutable state of `IndexAllocator`: the per-policy cursors, the free pool
(`std::queue`, head = front), the `m_allocated_indices` set (modelled as a
duplicate-free list), and the counters. -/
structure AllocState where
  next_sequential : Nat
  round_robin : Nat
  free_pool : List Nat
  allocated : List Nat
  in_use : Nat
  total_allocated : Nat
  total_deallocated : Nat
deriving DecidableEq, Repr

/-- Constructor state: the free pool is filled only under `POOL_BASED`
(`initialize_free_pool`). -/
def AllocState.init (policy : AllocationPolicy) (max_index : Nat) : AllocState :=
  { next_sequential := 0
    round_robin := 0
    free_pool := if policy = AllocationPolicy.POOL_BASED then List.range max_index else []
    allocated := []
    in_use := 0
    total_allocated := 0
    total_deallocated := 0 }

/-- `IndexAllocator::can_allocate`. -/
def can_allocate (policy : AllocationPolicy) (max_index : Nat) (st : AllocState) : Bool :=
  match policy with
  | AllocationPolicy.POOL_BASED => !st.free_pool.isEmpty
  | AllocationPolicy.SEQUENTIAL => decide (st.in_use < max_index)
  | AllocationPolicy.ROUND_ROBIN => decide (st.in_use < max_index)
  | AllocationPolicy.RANDOM => decide (st.in_use < max_index)

/-- `IndexAllocator::release_index`. -/
def release_index (policy : AllocationPolicy) (enable_reuse : Bool)
    (st : AllocState) (index : Nat) : AllocState :=
  match policy with
  | AllocationPolicy.POOL_BASED => { st with free_pool := st.free_pool ++ [index] }
  | AllocationPolicy.ROUND_ROBIN =>
    if enable_reuse then { st with allocated := st.allocated.erase index } else st
  | AllocationPolicy.SEQUENTIAL => st
  | AllocationPolicy.RANDOM => st

/-- `IndexAllocator::allocate_index`: the policy switch (with the pool-empty
fallback), followed by the conditional insertion into `m_allocated_indices`.
For `RANDOM` the distribution draw is the explicit `draw` oracle. -/
def allocate_index (policy : AllocationPolicy) (max_index : Nat)
    (enable_reuse : Bool) (draw : Nat) (st : AllocState) : Nat × AllocState :=
  let (index, st1) :=
    match policy with
    | AllocationPolicy.SEQUENTIAL =>
      (st.next_sequential,
       { st with next_sequential := (st.next_sequential + 1) % max_index })
    | AllocationPolicy.ROUND_ROBIN =>
      (st.round_robin,
       { st with round_robin := (st.round_robin + 1) % max_index })
    | AllocationPolicy.RANDOM => (draw, st)
    | AllocationPolicy.POOL_BASED =>
      match st.free_pool with
      | i :: rest => (i, { st with free_pool := rest })
      | [] =>
        (st.next_sequential,
         { st with next_sequential := (st.next_sequential + 1) % max_index })
  let st2 :=
    if enable_reuse && (decide (policy = AllocationPolicy.ROUND_ROBIN)
        || decide (policy = AllocationPolicy.POOL_BASED)) then
      { st1 with allocated := st1.allocated.insert index }
    else st1
  (index, st2)

/-- One arriving packet in `allocate_indices`: `allocate_index_blocking`
(`none` when `can_allocate` is false and nothing will wake the task), then the
counter updates. -/
def alloc_step (policy : AllocationPolicy) (max_index : Nat) (enable_reuse : Bool)
    (draw : Nat) (st : AllocState) : Option (Nat × AllocState) :=
  if can_allocate policy max_index st then
    let (index, st1) := allocate_index policy max_index enable_reuse draw st
    some (index,
          { st1 with
            total_allocated := st1.total_allocated + 1
            in_use := st1.in_use + 1 })
  else none

/-- One returning packet in `release_indices`: `release_index`, then the
counter updates (and `m_index_available.notify()`). -/
def release_step (policy : AllocationPolicy) (enable_reuse : Bool)
    (st : AllocState) (index : Nat) : AllocState :=
  let st1 := release_index policy enable_reuse st index
  { st1 with
    total_deallocated := st1.total_deallocated + 1
    in_use := st1.in_use - 1 }

/-- Interleaved allocator events: a packet arriving on `in` (with the RANDOM
draw oracle) or a response arriving on `release_in` carrying `index`. -/
inductive AllocOp
  | alloc (draw : Nat)
  | release (index : Nat)
deriving DecidableEq, Repr

/-- Sequential allocator run.  The third component of the result records, for
each allocation in order, the semantic in-flight tag set just before it and
the tag it returned. -/
def alloc_run (policy : AllocationPolicy) (max_index : Nat) (enable_reuse : Bool) :
    List AllocOp → AllocState → List Nat →
    Option (AllocState × List Nat × List (List Nat × Nat))
  | [], st, inflight => some (st, inflight, [])
  | AllocOp.alloc draw :: ops, st, inflight =>
    match alloc_step policy max_index enable_reuse draw st with
    | none => none
    | some (index, st1) =>
      match alloc_run policy max_index enable_reuse ops st1 (inflight.insert index) with
      | none => none
      | some (stf, inf, recs) => some (stf, inf, (inflight, index) :: recs)
  | AllocOp.release index :: ops, st, inflight =>
    alloc_run policy max_index enable_reuse ops
      (release_step policy enable_reuse st index) (inflight.erase index)

/-- Modelled from the spec (§4.8): the smallest tag of `[0, max_index)` not in
the given allocated set — the value the claim says every allocation returns. -/
def minFree (max_index : Nat) (used : List Nat) : Option Nat :=
  (List.range max_index).find? fun n => decide (n ∉ used)

/-- Claim C1 counterexample: with the SEQUENTIAL policy (the host-system
default), `max_index = 4` and the event sequence allocate → release tag 0 →
allocate, the second allocation returns tag 1 from the cyclic cursor although
the in-flight set at that moment is empty, whose complement has minimum 0:
allocation does not return `min(complement(allocated))`. -/
theorem index_allocator_min_free_counterexample :
    ∃ r ∈ (match alloc_run AllocationPolicy.SEQUENTIAL 4 true
            [AllocOp.alloc 0, AllocOp.release 0, AllocOp.alloc 0]
            (AllocState.init AllocationPolicy.SEQUENTIAL 4) [] with
           | none => []
           | some x => x.2.2),
      minFree 4 r.1 ≠ some r.2 := by
  decide

/-- Claim C1 (amended): the allocation operation blocks until the in-use
count is below `max_index` (for the SEQUENTIAL, ROUND_ROBIN and RANDOM
policies; until the free pool is non-empty for POOL_BASED), and under the
SEQUENTIAL policy used by the host system it then returns the current value of
a cyclic cursor and increments the cursor modulo `max_index` — independent of
which tags have been released — without inserting the tag into the
`m_allocated_indices` set (that insertion happens only under ROUND_ROBIN or
POOL_BASED with reuse enabled). -/
theorem index_allocator_sequential_allocate (max_index : Nat)
    (enable_reuse : Bool) (draw : Nat) (st : AllocState) :
    (st.in_use < max_index →
      alloc_step AllocationPolicy.SEQUENTIAL max_index enable_reuse draw st
        = some (st.next_sequential,
                { st with
                  next_sequential := (st.next_sequential + 1) % max_index
                  in_use := st.in_use + 1
                  total_allocated := st.total_allocated + 1 })) ∧
    (max_index ≤ st.in_use →
      alloc_step AllocationPolicy.SEQUENTIAL max_index enable_reuse draw st
        = none) := by
  constructor
  · intro h
    simp [alloc_step, can_allocate, allocate_index, h]
  · intro h
    simp [alloc_step, can_allocate, allocate_index, Nat.not_lt.mpr h]

theorem index_allocator_sequential_allocate_witness :
    ((AllocState.init AllocationPolicy.SEQUENTIAL 4).in_use < 4 ∧
     alloc_step AllocationPolicy.SEQUENTIAL 4 true 0
         (AllocState.init AllocationPolicy.SEQUENTIAL 4)
       = some ((AllocState.init AllocationPolicy.SEQUENTIAL 4).next_sequential,
               { AllocState.init AllocationPolicy.SEQUENTIAL 4 with
                 next_sequential :=
                   ((AllocState.init AllocationPolicy.SEQUENTIAL 4).next_sequential + 1) % 4
                 in_use := (AllocState.init AllocationPolicy.SEQUENTIAL 4).in_use + 1
                 total_allocated :=
                   (AllocState.init AllocationPolicy.SEQUENTIAL 4).total_allocated + 1 })) ∧
    (4 ≤ (4 : Nat) →
      alloc_step AllocationPolicy.SEQUENTIAL 4 true 0
          { AllocState.init AllocationPolicy.SEQUENTIAL 4 with in_use := 4 } = none) :=
  ⟨⟨by decide,
    (index_allocator_sequential_allocate 4 true 0
      (AllocState.init AllocationPolicy.SEQUENTIAL 4)).1 (by decide)⟩,
   fun _ =>
    (index_allocator_sequential_allocate 4 true 0
      { AllocState.init AllocationPolicy.SEQUENTIAL 4 with in_use := 4 }).2 (by decide)⟩

/-! ## NAND flash array (src/include/base/nand_flash.h)

The per-operation delays (`tR`, `tProg`, `tErase`, the I/O transfer time and
the ±5% Gaussian jitter) are floating-point quantities irrelevant to the state
properties below and are not modelled; the random failure draws of
`should_fail_operation` are explicit Boolean oracles (the value of each
potential draw).  The `m_flash_memory` array is a map from `(plane, block)` to
a `FlashBlock`. -/

/-- Page states (`enum class PageState`). -/
inductive PageState
  | CLEAN
  | PROGRAMMED
  | INVALID
deriving DecidableEq, Repr

/-- Block state (`struct FlashBlock`). -/
structure FlashBlock where
  pages : List PageState
  erase_count : Nat
  is_bad_block : Bool
deriving DecidableEq, Repr

/-- The `FlashBlock(pages_per_block)` constructor: all pages CLEAN. -/
def FlashBlock.init (num_pages : Nat) : FlashBlock :=
  { pages := List.replicate num_pages PageState.CLEAN
    erase_count := 0
    is_bad_block := false }

/-- Five-tuple flash address (`struct FlashAddress` in flash_packet.h). -/
structure FlashAddress where
  plane : Nat
  block : Nat
  wl : Nat
  ssl : Nat
  page : Nat
deriving DecidableEq, Repr

/-- Flash commands (`enum class FlashCommand`). -/
inductive FlashCommand
  | READ
  | PROGRAM
  | ERASE
deriving DecidableEq, Repr

/-- Geometry / endurance template and constructor parameters of `NANDFlash`. -/
structure NandCfg where
  numPlanes : Nat
  blocksPerPlane : Nat
  pagesPerBlock : Nat
  max_pe_cycles : Nat

/-- The flash array contents, indexed by plane and block. -/
abbrev FlashMem := Nat → Nat → FlashBlock

/-- Pointwise update of one block of the array. -/
def setFlashBlock (m : FlashMem) (plane block : Nat) (blk : FlashBlock) : FlashMem :=
  fun p b => if p = plane ∧ b = block then blk else m p b

/-- Outcomes of the potential `should_fail_operation` draws of one operation. -/
structure FlashFailOracle where
  prog_fail : Bool
  erase_wear_fail : Bool
  erase_rand_fail : Bool
deriving DecidableEq, Repr

/-- `NANDFlash::is_valid_address`. -/
def is_valid_address (cfg : NandCfg) (addr : FlashAddress) : Bool :=
  decide (addr.plane < cfg.numPlanes) && decide (addr.block < cfg.blocksPerPlane) &&
  decide (addr.wl < cfg.pagesPerBlock) && decide (addr.ssl < 4) &&
  decide (addr.page < 32)

/-- Linear page index used by `get_page_state` / `set_page_state`. -/
def flash_page_index (addr : FlashAddress) : Nat :=
  addr.wl * 4 * 32 + addr.ssl * 32 + addr.page

/-- `NANDFlash::get_page_state` (out-of-range reads yield CLEAN). -/
def get_page_state (m : FlashMem) (addr : FlashAddress) : PageState :=
  (m addr.plane addr.block).pages.getD (flash_page_index addr) PageState.CLEAN

/-- `NANDFlash::set_page_state` (out-of-range writes are dropped, as is
`List.set`'s behaviour). -/
def set_page_state (m : FlashMem) (addr : FlashAddress) (st : PageState) : FlashMem :=
  setFlashBlock m addr.plane addr.block
    { m addr.plane addr.block with
      pages := (m addr.plane addr.block).pages.set (flash_page_index addr) st }

/-- `NANDFlash::mark_bad_block`. -/
def mark_bad_block (cfg : NandCfg) (m : FlashMem) (plane block : Nat) : FlashMem :=
  if plane < cfg.numPlanes ∧ block < cfg.blocksPerPlane then
    setFlashBlock m plane block { m plane block with is_bad_block := true }
  else m

/-- `NANDFlash::process_read`: never fails and leaves the array unchanged (the
0xFF data returned for a CLEAN page lives on the wrapped origin packet, which
carries no further state here). -/
def process_read (m : FlashMem) (addr : FlashAddress) : Bool × Bool × FlashMem :=
  let _ := get_page_state m addr
  (true, false, m)

/-- `NANDFlash::process_program`: result is
(success, DEVICE_ERROR-logged, new array).  The page is marked PROGRAMMED
before the probabilistic failure check. -/
def process_program (cfg : NandCfg) (o : FlashFailOracle) (m : FlashMem)
    (addr : FlashAddress) : Bool × Bool × FlashMem :=
  if get_page_state m addr ≠ PageState.CLEAN then
    (false, true, m)
  else
    let m1 := set_page_state m addr PageState.PROGRAMMED
    if o.prog_fail then
      (false, false, mark_bad_block cfg m1 addr.plane addr.block)
    else
      (true, false, m1)

/-- `NANDFlash::process_erase`: all pages of the block become CLEAN and
`erase_count` is incremented before the wear-out and random-failure checks. -/
def process_erase (cfg : NandCfg) (o : FlashFailOracle) (m : FlashMem)
    (addr : FlashAddress) : Bool × Bool × FlashMem :=
  let blk := m addr.plane addr.block
  let blk1 := { blk with
    pages := blk.pages.map fun _ => PageState.CLEAN
    erase_count := blk.erase_count + 1 }
  let m1 := setFlashBlock m addr.plane addr.block blk1
  if blk1.erase_count ≥ cfg.max_pe_cycles ∧ o.erase_wear_fail then
    (false, false, mark_bad_block cfg m1 addr.plane addr.block)
  else if o.erase_rand_fail then
    (false, false, mark_bad_block cfg m1 addr.plane addr.block)
  else
    (true, false, m1)

/-- Outcome of one `flash_process` iteration for one packet. -/
inductive FlashStepResult
  | droppedInvalidAddress
  | droppedBadBlock
  | released (success : Bool) (device_error : Bool)
deriving DecidableEq, Repr

/-- Per-packet body of `NANDFlash::flash_process`: validate the address, reject
accesses to bad blocks with DEVICE_ERROR (packet not released), otherwise
dispatch on the command, wait out the (unmodelled) jittered delay and release
the packet regardless of success. -/
def flash_process_step (cfg : NandCfg) (o : FlashFailOracle) (m : FlashMem)
    (addr : FlashAddress) (cmd : FlashCommand) : FlashStepResult × FlashMem :=
  if ¬ is_valid_address cfg addr then
    (FlashStepResult.droppedInvalidAddress, m)
  else if (m addr.plane addr.block).is_bad_block then
    (FlashStepResult.droppedBadBlock, m)
  else
    match cmd with
    | FlashCommand.READ =>
      let (s, e, m1) := process_read m addr
      (FlashStepResult.released s e, m1)
    | FlashCommand.PROGRAM =>
      let (s, e, m1) := process_program cfg o m addr
      (FlashStepResult.released s e, m1)
    | FlashCommand.ERASE =>
      let (s, e, m1) := process_erase cfg o m addr
      (FlashStepResult.released s e, m1)

/-- Claim C3: a PROGRAM targeting a page whose state is not CLEAN fails with
DEVICE_ERROR (leaving the array unchanged); an ERASE sets every page of the
target block to CLEAN and increments that block's erase_count by exactly one
(whatever the failure draws); and once a block is marked bad, any access to it
is rejected with DEVICE_ERROR, unchanged state, packet dropped. -/
theorem nand_program_erase_badblock (cfg : NandCfg) (o : FlashFailOracle)
    (m : FlashMem) (addr : FlashAddress) :
    (is_valid_address cfg addr = true →
     (m addr.plane addr.block).is_bad_block = false →
     get_page_state m addr ≠ PageState.CLEAN →
     flash_process_step cfg o m addr FlashCommand.PROGRAM
       = (FlashStepResult.released false true, m)) ∧
    (is_valid_address cfg addr = true →
     (m addr.plane addr.block).is_bad_block = false →
     ((flash_process_step cfg o m addr FlashCommand.ERASE).2
         addr.plane addr.block).pages
       = List.replicate (m addr.plane addr.block).pages.length PageState.CLEAN ∧
     ((flash_process_step cfg o m addr FlashCommand.ERASE).2
         addr.plane addr.block).erase_count
       = (m addr.plane addr.block).erase_count + 1) ∧
    (is_valid_address cfg addr = true →
     (m addr.plane addr.block).is_bad_block = true →
     ∀ cmd, flash_process_step cfg o m addr cmd
       = (FlashStepResult.droppedBadBlock, m)) := by
  refine ⟨?_, ?_, ?_⟩
  · intro hv hb hclean
    simp [flash_process_step, hv, hb, process_program, hclean]
  · intro hv hb
    have hmap : ∀ l : List PageState,
        l.map (fun _ => PageState.CLEAN) = List.replicate l.length PageState.CLEAN := by
      intro l; induction l with
      | nil => rfl
      | cons a tl ih => simp [List.replicate_succ, ih]
    have hbounds : addr.plane < cfg.numPlanes ∧ addr.block < cfg.blocksPerPlane := by
      have h := hv
      simp only [is_valid_address, Bool.and_eq_true, decide_eq_true_eq] at h
      exact ⟨h.1.1.1.1, h.1.1.1.2⟩
    refine ⟨?_, ?_⟩ <;>
      simp [flash_process_step, hv, hb, process_erase, mark_bad_block, hbounds,
        setFlashBlock, hmap] <;>
      split <;>
      (try split) <;>
      simp [mark_bad_block, hbounds, setFlashBlock, hmap]
  · intro hv hb cmd
    simp [flash_process_step, hv, hb]

theorem nand_program_erase_badblock_witness :
    (is_valid_address ⟨1, 1, 1, 2⟩ ⟨0, 0, 0, 0, 0⟩ = true ∧
     ((set_page_state (fun _ _ => FlashBlock.init 128) ⟨0, 0, 0, 0, 0⟩
         PageState.PROGRAMMED) 0 0).is_bad_block = false ∧
     get_page_state (set_page_state (fun _ _ => FlashBlock.init 128) ⟨0, 0, 0, 0, 0⟩
         PageState.PROGRAMMED) ⟨0, 0, 0, 0, 0⟩ ≠ PageState.CLEAN ∧
     flash_process_step ⟨1, 1, 1, 2⟩ ⟨false, false, false⟩
         (set_page_state (fun _ _ => FlashBlock.init 128) ⟨0, 0, 0, 0, 0⟩
           PageState.PROGRAMMED) ⟨0, 0, 0, 0, 0⟩ FlashCommand.PROGRAM
       = (FlashStepResult.released false true,
          set_page_state (fun _ _ => FlashBlock.init 128) ⟨0, 0, 0, 0, 0⟩
            PageState.PROGRAMMED)) ∧
    (((flash_process_step ⟨1, 1, 1, 2⟩ ⟨false, false, false⟩
          (fun _ _ => FlashBlock.init 128) ⟨0, 0, 0, 0, 0⟩ FlashCommand.ERASE).2 0 0).pages
       = List.replicate ((fun (_ _ : Nat) => FlashBlock.init 128) 0 0).pages.length
           PageState.CLEAN ∧
     ((flash_process_step ⟨1, 1, 1, 2⟩ ⟨false, false, false⟩
          (fun _ _ => FlashBlock.init 128) ⟨0, 0, 0, 0, 0⟩ FlashCommand.ERASE).2 0 0).erase_count
       = ((fun (_ _ : Nat) => FlashBlock.init 128) 0 0).erase_count + 1) ∧
    (∀ cmd, flash_process_step ⟨1, 1, 1, 2⟩ ⟨false, false, false⟩
        (setFlashBlock (fun _ _ => FlashBlock.init 128) 0 0
          { FlashBlock.init 128 with is_bad_block := true }) ⟨0, 0, 0, 0, 0⟩ cmd
      = (FlashStepResult.droppedBadBlock,
         setFlashBlock (fun _ _ => FlashBlock.init 128) 0 0
           { FlashBlock.init 128 with is_bad_block := true })) :=
  ⟨⟨by decide, by decide, by decide,
    (nand_program_erase_badblock ⟨1, 1, 1, 2⟩ ⟨false, false, false⟩
      (set_page_state (fun _ _ => FlashBlock.init 128) ⟨0, 0, 0, 0, 0⟩
        PageState.PROGRAMMED) ⟨0, 0, 0, 0, 0⟩).1 (by decide) (by decide) (by decide)⟩,
   (nand_program_erase_badblock ⟨1, 1, 1, 2⟩ ⟨false, false, false⟩
      (fun _ _ => FlashBlock.init 128) ⟨0, 0, 0, 0, 0⟩).2.1 (by decide) (by decide),
   (nand_program_erase_badblock ⟨1, 1, 1, 2⟩ ⟨false, false, false⟩
      (setFlashBlock (fun _ _ => FlashBlock.init 128) 0 0
        { FlashBlock.init 128 with is_bad_block := true }) ⟨0, 0, 0, 0, 0⟩).2.2
     (by decide) (by decide)⟩

theorem list_getD_set_eq {α : Type} (l : List α) (i : Nat) (a d : α)
    (h : i < l.length) : (l.set i a).getD i d = a := by
  induction l generalizing i with
  | nil => simp at h
  | cons x xs ih =>
    cases i with
    | zero => rfl
    | succ n => simpa [List.getD] using ih n (by simpa using h)

/-- Claim C10: when a PROGRAM to a CLEAN page takes the probabilistic failure
branch, the page has already been set to PROGRAMMED and remains PROGRAMMED
while the block is marked bad; likewise a failing ERASE (wear-out or random
failure) has already reset all pages of the block to CLEAN and incremented
erase_count before the block is marked bad — NAND state is not left unchanged
on a failed operation.  The `hlen` hypothesis is the `FlashBlock`
constructor's invariant `pages.size() = PagesPerBlock * 4 * 32`. -/
theorem nand_failed_op_state_mutation (cfg : NandCfg) (o : FlashFailOracle)
    (m : FlashMem) (addr : FlashAddress) :
    (is_valid_address cfg addr = true →
     (m addr.plane addr.block).is_bad_block = false →
     get_page_state m addr = PageState.CLEAN →
     (m addr.plane addr.block).pages.length = cfg.pagesPerBlock * 4 * 32 →
     o.prog_fail = true →
     (flash_process_step cfg o m addr FlashCommand.PROGRAM).1
       = FlashStepResult.released false false ∧
     get_page_state (flash_process_step cfg o m addr FlashCommand.PROGRAM).2 addr
       = PageState.PROGRAMMED ∧
     ((flash_process_step cfg o m addr FlashCommand.PROGRAM).2
         addr.plane addr.block).is_bad_block = true) ∧
    (is_valid_address cfg addr = true →
     (m addr.plane addr.block).is_bad_block = false →
     (o.erase_rand_fail = true ∨
       (cfg.max_pe_cycles ≤ (m addr.plane addr.block).erase_count + 1 ∧
        o.erase_wear_fail = true)) →
     (flash_process_step cfg o m addr FlashCommand.ERASE).1
       = FlashStepResult.released false false ∧
     ((flash_process_step cfg o m addr FlashCommand.ERASE).2
         addr.plane addr.block).pages
       = List.replicate (m addr.plane addr.block).pages.length PageState.CLEAN ∧
     ((flash_process_step cfg o m addr FlashCommand.ERASE).2
         addr.plane addr.block).erase_count
       = (m addr.plane addr.block).erase_count + 1 ∧
     ((flash_process_step cfg o m addr FlashCommand.ERASE).2
         addr.plane addr.block).is_bad_block = true) := by
  have hmap : ∀ l : List PageState,
      l.map (fun _ => PageState.CLEAN) = List.replicate l.length PageState.CLEAN := by
    intro l; induction l with
    | nil => rfl
    | cons a tl ih => simp [List.replicate_succ, ih]
  constructor
  · intro hv hb hclean hlen hpf
    have hbounds : addr.plane < cfg.numPlanes ∧ addr.block < cfg.blocksPerPlane ∧
        addr.wl < cfg.pagesPerBlock ∧ addr.ssl < 4 ∧ addr.page < 32 := by
      have h := hv
      simp only [is_valid_address, Bool.and_eq_true, decide_eq_true_eq] at h
      exact ⟨h.1.1.1.1, h.1.1.1.2, h.1.1.2, h.1.2, h.2⟩
    have hidx : flash_page_index addr < (m addr.plane addr.block).pages.length := by
      unfold flash_page_index
      rw [hlen]
      omega
    have hcln : ¬ get_page_state m addr ≠ PageState.CLEAN := by simp [hclean]
    refine ⟨?_, ?_, ?_⟩
    · simp [flash_process_step, hv, hb, process_program, hcln, hpf]
    · simp only [flash_process_step, hv, hb, process_program]
      rw [if_neg (by simp), if_neg (by simp [hb]), if_neg hcln, if_pos hpf]
      simp only [mark_bad_block, if_pos (And.intro hbounds.1 hbounds.2.1)]
      simp only [get_page_state, set_page_state, setFlashBlock, and_self, if_true]
      exact list_getD_set_eq _ _ _ _ hidx
    · simp only [flash_process_step, hv, hb, process_program]
      rw [if_neg (by simp), if_neg (by simp [hb]), if_neg hcln, if_pos hpf]
      simp [mark_bad_block, hbounds.1, hbounds.2.1, setFlashBlock, set_page_state]
  · intro hv hb hfail
    have hbounds : addr.plane < cfg.numPlanes ∧ addr.block < cfg.blocksPerPlane := by
      have h := hv
      simp only [is_valid_address, Bool.and_eq_true, decide_eq_true_eq] at h
      exact ⟨h.1.1.1.1, h.1.1.1.2⟩
    by_cases hc1 : cfg.max_pe_cycles ≤ (m addr.plane addr.block).erase_count + 1 ∧
        o.erase_wear_fail = true
    · refine ⟨?_, ?_, ?_, ?_⟩ <;>
        simp [flash_process_step, hv, hb, process_erase, hc1, mark_bad_block,
          hbounds.1, hbounds.2, setFlashBlock, hmap]
    · have hr : o.erase_rand_fail = true := by tauto
      refine ⟨?_, ?_, ?_, ?_⟩ <;>
        simp [flash_process_step, hv, hb, process_erase, hc1, hr, mark_bad_block,
          hbounds.1, hbounds.2, setFlashBlock, hmap]

set_option maxRecDepth 20000 in
theorem nand_failed_op_state_mutation_witness :
    (is_valid_address ⟨1, 1, 1, 2⟩ ⟨0, 0, 0, 0, 0⟩ = true ∧
     ((fun (_ _ : Nat) => FlashBlock.init 128) 0 0).is_bad_block = false ∧
     get_page_state (fun _ _ => FlashBlock.init 128) ⟨0, 0, 0, 0, 0⟩ = PageState.CLEAN ∧
     ((fun (_ _ : Nat) => FlashBlock.init 128) 0 0).pages.length = 1 * 4 * 32 ∧
     (flash_process_step ⟨1, 1, 1, 2⟩ ⟨true, false, false⟩
         (fun _ _ => FlashBlock.init 128) ⟨0, 0, 0, 0, 0⟩ FlashCommand.PROGRAM).1
       = FlashStepResult.released false false ∧
     get_page_state (flash_process_step ⟨1, 1, 1, 2⟩ ⟨true, false, false⟩
         (fun _ _ => FlashBlock.init 128) ⟨0, 0, 0, 0, 0⟩ FlashCommand.PROGRAM).2
         ⟨0, 0, 0, 0, 0⟩ = PageState.PROGRAMMED ∧
     ((flash_process_step ⟨1, 1, 1, 2⟩ ⟨true, false, false⟩
         (fun _ _ => FlashBlock.init 128) ⟨0, 0, 0, 0, 0⟩ FlashCommand.PROGRAM).2 0 0).is_bad_block
       = true) ∧
    ((flash_process_step ⟨1, 1, 1, 2⟩ ⟨false, false, true⟩
         (fun _ _ => FlashBlock.init 128) ⟨0, 0, 0, 0, 0⟩ FlashCommand.ERASE).1
       = FlashStepResult.released false false ∧
     ((flash_process_step ⟨1, 1, 1, 2⟩ ⟨false, false, true⟩
         (fun _ _ => FlashBlock.init 128) ⟨0, 0, 0, 0, 0⟩ FlashCommand.ERASE).2 0 0).pages
       = List.replicate ((fun (_ _ : Nat) => FlashBlock.init 128) 0 0).pages.length
           PageState.CLEAN ∧
     ((flash_process_step ⟨1, 1, 1, 2⟩ ⟨false, false, true⟩
         (fun _ _ => FlashBlock.init 128) ⟨0, 0, 0, 0, 0⟩ FlashCommand.ERASE).2 0 0).erase_count
       = ((fun (_ _ : Nat) => FlashBlock.init 128) 0 0).erase_count + 1 ∧
     ((flash_process_step ⟨1, 1, 1, 2⟩ ⟨false, false, true⟩
         (fun _ _ => FlashBlock.init 128) ⟨0, 0, 0, 0, 0⟩ FlashCommand.ERASE).2 0 0).is_bad_block
       = true) :=
  ⟨⟨by decide, by decide, by decide, by decide,
    (nand_failed_op_state_mutation ⟨1, 1, 1, 2⟩ ⟨true, false, false⟩
        (fun _ _ => FlashBlock.init 128) ⟨0, 0, 0, 0, 0⟩).1
      (by decide) (by decide) (by decide) (by decide) (by decide)⟩,
   (nand_failed_op_state_mutation ⟨1, 1, 1, 2⟩ ⟨false, false, true⟩
        (fun _ _ => FlashBlock.init 128) ⟨0, 0, 0, 0, 0⟩).2
     (by decide) (by decide) (Or.inl (by decide))⟩

/-! ## PCIe delay line (src/include/base/pcie_delay_line.h)

The per-attempt total delay (transmission time + CRC processing + congestion,
all floating-point formulas) is supplied by the `delayOf` oracle (attempt
number ↦ delay in picoseconds), and the CRC-error draw of
`PCIePacket::should_crc_error_occur` by the `errOf` oracle.  Attempt 0 is the
initial transmission; attempt `k ≥ 1` is the k-th retry.  The per-packet
`retry_count` starts at 0 (the `PCIePacket` constructors). -/

/-- Result of `PCIeDelayLine::process_packets` for one packet. -/
structure PcieOut where
  emitted : Bool
  device_error : Bool
  retry_count : Nat
  end_time : Nat
deriving DecidableEq, Repr

/-- `PCIeDelayLine::process_pcie_packet` for attempt outcome `err` and total
delay `delay`: wait the delay, then report the CRC check (always success when
CRC simulation is disabled). -/
def process_pcie_packet (enable_crc : Bool) (err : Bool) (delay : Nat)
    (now : Nat) : Nat × Bool :=
  (now + delay, if enable_crc then !err else true)

/-- The retry loop `while (!success && retry_count < 3)`: increment the retry
counter, wait the 100 ns penalty, retry.  The `fuel` argument only bounds the
structural recursion; `fuel = 3` covers every reachable iteration count, and
when fuel runs out the guard is already false. -/
def pcie_retry_loop (enable_crc : Bool) (errOf : Nat → Bool) (delayOf : Nat → Nat) :
    Nat → Nat → Nat → Bool → Nat × Nat × Bool
  | 0, retry, now, success => (retry, now, success)
  | fuel + 1, retry, now, success =>
    if success = false ∧ retry < 3 then
      let retry1 := retry + 1
      let now1 := now + 100000
      let (now2, success2) :=
        process_pcie_packet enable_crc (errOf retry1) (delayOf retry1) now1
      pcie_retry_loop enable_crc errOf delayOf fuel retry1 now2 success2
    else (retry, now, success)

/-- Per-packet body of `PCIeDelayLine::process_packets`: first transmission
attempt, the retry loop, then either emit on `out` or raise DEVICE_ERROR and
drop the packet. -/
def pcie_process_one (enable_crc : Bool) (errOf : Nat → Bool)
    (delayOf : Nat → Nat) (now : Nat) : PcieOut :=
  let (now1, success1) := process_pcie_packet enable_crc (errOf 0) (delayOf 0) now
  let (retryF, nowF, successF) :=
    pcie_retry_loop enable_crc errOf delayOf 3 0 now1 success1
  if successF then
    { emitted := true, device_error := false, retry_count := retryF, end_time := nowF }
  else
    { emitted := false, device_error := true, retry_count := retryF, end_time := nowF }

/-- Claim C4: with CRC simulation enabled, each CRC error that is followed by
a retry increments the packet's retry counter and incurs a 100 ns penalty
before the retry (the counter equals the number of leading failed attempts,
capped at 3, and the service time includes one 100 ns penalty per retry on
top of the first attempt's delay); the retry counter never exceeds 3; and a
packet that still fails after the maximum retries raises DEVICE_ERROR exactly
when all four attempts fail, in which case it is not emitted on the output
channel. -/
theorem pcie_crc_retry_behavior (errOf : Nat → Bool) (delayOf : Nat → Nat)
    (now : Nat) :
    (pcie_process_one true errOf delayOf now).retry_count ≤ 3 ∧
    (pcie_process_one true errOf delayOf now).retry_count
      = (if errOf 0 = false then 0 else if errOf 1 = false then 1
         else if errOf 2 = false then 2 else 3) ∧
    ((pcie_process_one true errOf delayOf now).device_error = true ↔
      (pcie_process_one true errOf delayOf now).emitted = false) ∧
    ((pcie_process_one true errOf delayOf now).device_error = true ↔
      (errOf 0 = true ∧ errOf 1 = true ∧ errOf 2 = true ∧ errOf 3 = true)) ∧
    now + delayOf 0 + (pcie_process_one true errOf delayOf now).retry_count * 100000
      ≤ (pcie_process_one true errOf delayOf now).end_time := by
  cases h0 : errOf 0 <;> cases h1 : errOf 1 <;> cases h2 : errOf 2 <;>
    cases h3 : errOf 3 <;>
    simp only [pcie_process_one, pcie_retry_loop, process_pcie_packet,
      h0, h1, h2, h3, Bool.not_true, Bool.not_false, and_true, and_false,
      Nat.zero_lt_succ, if_true, if_false] <;>
    norm_num <;>
    omega

/-! ## Traffic generator (src/src/base/traffic_generator.cpp)

Only the counters relevant to outstanding-transaction flow control are
modelled; packet contents and the RNG draws of `generate_packet` do not
matter here.  The constant-pattern emission loop of the source writes each
packet and increments `m_transactions_sent`, then waits `m_interval` — it
never calls `has_outstanding_capacity`, never waits on `m_completion_event`
and never increments `m_outstanding_count`. -/

/-- Counter state of `TrafficGenerator`. -/
structure TrafficGenState where
  transactions_sent : Nat
  transactions_completed : Nat
  outstanding_count : Nat
deriving DecidableEq, Repr

/-- Zero-initialised counters (the constructors). -/
def TrafficGenState.init : TrafficGenState :=
  { transactions_sent := 0, transactions_completed := 0, outstanding_count := 0 }

/-- `TrafficGenerator::notify_completion`. -/
def notify_completion (st : TrafficGenState) : TrafficGenState :=
  { st with
    transactions_completed := st.transactions_completed + 1
    outstanding_count :=
      if 0 < st.outstanding_count then st.outstanding_count - 1
      else st.outstanding_count }

/-- `TrafficGenerator::has_outstanding_capacity` (defined in the header, never
called by any emission loop). -/
def has_outstanding_capacity (max_outstanding : Nat) (st : TrafficGenState) : Bool :=
  decide (max_outstanding = 0) || decide (st.outstanding_count < max_outstanding)

/-- `TrafficGenerator::run_constant_pattern`: emit, count, wait, repeat.  Note
the absence of any capacity gate or `m_outstanding_count` update. -/
def run_constant_pattern (interval : Nat) :
    Nat → Nat → TrafficGenState → Nat × TrafficGenState
  | 0, now, st => (now, st)
  | iters + 1, now, st =>
    run_constant_pattern interval iters (now + interval)
      { st with transactions_sent := st.transactions_sent + 1 }

/-- Claim C6 evaluated at the failing input: with `max_outstanding = 1`, two
transactions and no completion arriving, the constant-pattern loop emits both
packets, so the number of emitted-but-uncompleted transactions reaches 2 > 1;
the generator's own outstanding counter stays 0 because no emission path ever
increments it or consults `has_outstanding_capacity`. -/
theorem traffic_generator_outstanding_exceeds_limit :
    (run_constant_pattern 10000 2 0 TrafficGenState.init).2.transactions_sent
      - (run_constant_pattern 10000 2 0 TrafficGenState.init).2.transactions_completed
      = 2 ∧
    ¬ (2 : Nat) ≤ 1 ∧
    (run_constant_pattern 10000 2 0 TrafficGenState.init).2.outstanding_count = 0 ∧
    has_outstanding_capacity 1
      (run_constant_pattern 10000 2 0 TrafficGenState.init).2 = true := by
  decide

/-! ## L1 cache address decode (src/include/base/cache_l1.h) -/

/-- `CacheL1` geometry constant `NUM_LINES = CACHE_SIZE / LINE_SIZE` with
`CACHE_SIZE = CACHE_SIZE_KB * 1024`. -/
def cacheNumLines (size_kb line : Nat) : Nat := size_kb * 1024 / line

/-- `CacheL1` geometry constant `NUM_SETS = NUM_LINES / ASSOCIATIVITY`. -/
def cacheNumSets (size_kb line assoc : Nat) : Nat := cacheNumLines size_kb line / assoc

/-- `OFFSET_BITS = __builtin_ctz(LINE_SIZE)`. -/
def cacheOffsetBits (line : Nat) : Nat := ctz line

/-- `INDEX_BITS = __builtin_ctz(NUM_SETS)`. -/
def cacheIndexBits (size_kb line assoc : Nat) : Nat :=
  ctz (cacheNumSets size_kb line assoc)

/-- `CacheL1::get_set_index`. -/
def cache_get_set_index (size_kb line assoc address : Nat) : Nat :=
  (address >>> cacheOffsetBits line) &&&
    ((1 <<< cacheIndexBits size_kb line assoc) - 1)

/-- `CacheL1::get_tag`. -/
def cache_get_tag (size_kb line assoc address : Nat) : Nat :=
  address >>> (cacheOffsetBits line + cacheIndexBits size_kb line assoc)

/-- Claim C9 counterexample: the cache with line 64, 128 sets and
associativity 4 is the 32 KB instantiation, and its decode maps address
0x1000 to set 64 with tag 0, not to set 0 with tag 2 as claimed. -/
theorem cache_decode_0x1000_counterexample :
    cacheNumSets 32 64 4 = 128 ∧
    ¬ (cache_get_set_index 32 64 4 4096 = 0 ∧ cache_get_tag 32 64 4 4096 = 2) := by
  decide

/-- Claim C9 (amended): for the L1 cache configured with line size 64 bytes,
128 sets (the 32 KB, 4-way instantiation), the address-decode functions map
address 0x1000 to set index 64 and tag 0. -/
theorem cache_decode_0x1000 :
    cacheNumSets 32 64 4 = 128 ∧
    cache_get_set_index 32 64 4 4096 = 64 ∧
    cache_get_tag 32 64 4 4096 = 0 := by
  decide

end MoonSim
